import Mathlib

/-!
Formal model of the SGP4/SDP4 satellite propagator in src/SGP4.cpp / src/SGP4.h.

The C++ code computes with IEEE doubles; this development models the arithmetic
exactly over `ℚ` and abstracts the transcendental library functions
(`sin`, `cos`, `sqrt`, `atan2`, and `pow` with non-integer exponents) as an
oracle record `Oracles`, so that every definition is computable and every
theorem quantifies over the oracle.  Numeric literals are the exact rational
values written in the source text.  Calls of `pow` whose exponent is the
literal 2.0, 3.0 or 4.0 are modelled as exact integer powers.
All angles are radians, times are minutes, distances are Earth radii,
matching the source conventions.
-/

namespace SGP4Q

/-- Transcendental functions used by the source, abstracted as parameters.
`pow x y` models the C `pow` for non-integer exponents `y`. -/
structure Oracles where
  sin : ℚ → ℚ
  cos : ℚ → ℚ
  sqrt : ℚ → ℚ
  atan2 : ℚ → ℚ → ℚ
  pow : ℚ → ℚ → ℚ

/-- The error kinds thrown by the source (SatelliteException messages). -/
inductive SatErr where
  /-- SetTle line 75: eccentricity out of range. -/
  | eccOutOfRange : SatErr
  /-- SetTle line 79: inclination out of range. -/
  | inclOutOfRange : SatErr
  /-- Error: #1 (e >= 1.0 or e < -0.001), lines 302 and 428. -/
  | err1 : SatErr
  /-- Error: #2 (xn <= 0.0), line 292 (deep-space path). -/
  | err2xn : SatErr
  /-- Error: #2 (xl <= 0.0), line 421 (near-space path). -/
  | err2xl : SatErr
  /-- Error: #3 (e < 0.0 or e > 1.0), line 337 (deep-space path only). -/
  | err3 : SatErr
  /-- Error: #4 (pl < 0.0), line 538 (Kepler stage). -/
  | err4 : SatErr
  /-- Error: #6 satellite decayed (rk < 1.0), line 568. -/
  | err6 : SatErr
deriving DecidableEq

/-- A 3-vector of rationals (the Vector external data carrier). -/
structure Vec3 where
  x : ℚ
  y : ℚ
  z : ℚ
deriving DecidableEq

/-- The emitted ECI state: minutes since epoch, position (km), velocity (km/s).
The Julian date `epoch + tsince` of the source is represented by `tsince`. -/
structure Eci where
  tsince : ℚ
  position : Vec3
  velocity : Vec3
deriving DecidableEq

/- Constants from the preprocessor defines at the top of src/SGP4.cpp. -/

def AEq : ℚ := 1
def Q0q : ℚ := 120
def S0q : ℚ := 78
def MUq : ℚ := 398600.8
def XKMPER : ℚ := 6378.135
def XJ2 : ℚ := 1.082616e-3
def XJ3 : ℚ := -2.53881e-6
def XJ4 : ℚ := -1.65597e-6
def CK2 : ℚ := 0.5 * XJ2 * AEq * AEq
def CK4 : ℚ := -0.375 * XJ4 * AEq * AEq * AEq * AEq
def QOMS2T : ℚ := ((Q0q - S0q) / XKMPER) ^ (4 : ℕ)
def Sconst : ℚ := AEq * (1 + S0q / XKMPER)
def PIq : ℚ := 3.14159265358979323846264338327950288419716939937510582
def TWOPIq : ℚ := 2 * PIq
def TWOTHIRDq : ℚ := 2 / 3
def THDTq : ℚ := 4.37526908801129966e-3

/-- XKE = 60 / sqrt(XKMPER^3 / MU); the square root goes through the oracle. -/
def XKEq (O : Oracles) : ℚ := 60 / O.sqrt (XKMPER * XKMPER * XKMPER / MUq)

/-- Truncation toward zero, the rounding used by the C `fmod`. -/
def qtrunc (x : ℚ) : ℤ := if 0 ≤ x then ⌊x⌋ else ⌈x⌉

/-- Exact model of the C `fmod` on rationals. -/
def fmodq (x y : ℚ) : ℚ := x - y * (qtrunc (x / y))

/-- Modelled from the spec: the external helper `Globals::Fmod2p` (its source
file is not under src/).  Section 2 of the spec describes it as the angle
normalization helper, reduction to [0, 2*pi). -/
def fmod2p (x : ℚ) : ℚ :=
  let r := fmodq x TWOPIq
  if r < 0 then r + TWOPIq else r

/- Constants local to DeepSpaceInitialize (lines 620-637),
DeepSpaceCalculateLunarSolarTerms (lines 943-946) and
DeepSpaceCalcDotTerms (lines 1175-1182). -/

def ZNS : ℚ := 1.19459e-5
def C1SS : ℚ := 2.9864797e-6
def ZES : ℚ := 0.01675
def ZNL : ℚ := 1.5835218e-4
def C1L : ℚ := 4.7968065e-7
def ZEL : ℚ := 0.05490
def ZCOSIS : ℚ := 0.91744867
def ZSINI : ℚ := 0.39785416
def ZSINGS : ℚ := -0.98088458
def ZCOSGS : ℚ := 0.1945905
def Q22 : ℚ := 1.7891679e-6
def Q31 : ℚ := 2.1460748e-6
def Q33 : ℚ := 2.2123015e-7
def ROOT22 : ℚ := 1.7891679e-6
def ROOT32 : ℚ := 3.7393792e-7
def ROOT44 : ℚ := 7.3636953e-9
def ROOT52 : ℚ := 1.1428639e-7
def ROOT54 : ℚ := 2.1765803e-9
def G22 : ℚ := 5.7686396
def G32 : ℚ := 0.95240898
def G44 : ℚ := 1.8014998
def G52 : ℚ := 1.0508330
def G54 : ℚ := 4.4108898
def FASX2 : ℚ := 0.13130908
def FASX4 : ℚ := 2.8843198
def FASX6 : ℚ := 0.37448087

/-- The member fields of class SGP4 that are constant after initialization:
the element record, the flags, the common / near-space / deep-space
coefficient sets and the integrator constants (SGP4.h lines 39-161, 254-265).
The underscore decorations of the C++ field names are dropped. -/
structure SGP4Consts where
  firstRun : Bool
  useSimpleModel : Bool
  useDeepSpace : Bool
  cosio : ℚ
  sinio : ℚ
  eta : ℚ
  t2cof : ℚ
  a3ovk2 : ℚ
  x1mth2 : ℚ
  x3thm1 : ℚ
  x7thm1 : ℚ
  aycof : ℚ
  xlcof : ℚ
  xnodcf : ℚ
  c1 : ℚ
  c4 : ℚ
  omgdot : ℚ
  xnodot : ℚ
  xmdot : ℚ
  c5 : ℚ
  omgcof : ℚ
  xmcof : ℚ
  delmo : ℚ
  sinmo : ℚ
  d2 : ℚ
  d3 : ℚ
  d4 : ℚ
  t3cof : ℚ
  t4cof : ℚ
  t5cof : ℚ
  gsto : ℚ
  zmol : ℚ
  zmos : ℚ
  resonanceFlag : Bool
  synchronousFlag : Bool
  sse : ℚ
  ssi : ℚ
  ssl : ℚ
  ssg : ℚ
  ssh : ℚ
  se2 : ℚ
  si2 : ℚ
  sl2 : ℚ
  sgh2 : ℚ
  sh2 : ℚ
  se3 : ℚ
  si3 : ℚ
  sl3 : ℚ
  sgh3 : ℚ
  sh3 : ℚ
  sl4 : ℚ
  sgh4 : ℚ
  ee2 : ℚ
  e3 : ℚ
  xi2 : ℚ
  xi3 : ℚ
  xl2 : ℚ
  xl3 : ℚ
  xl4 : ℚ
  xgh2 : ℚ
  xgh3 : ℚ
  xgh4 : ℚ
  xh2 : ℚ
  xh3 : ℚ
  d2201 : ℚ
  d2211 : ℚ
  d3210 : ℚ
  d3222 : ℚ
  d4410 : ℚ
  d4422 : ℚ
  d5220 : ℚ
  d5232 : ℚ
  d5421 : ℚ
  d5433 : ℚ
  del1 : ℚ
  del2 : ℚ
  del3 : ℚ
  xfact : ℚ
  xlamo : ℚ
  xndot0 : ℚ
  xnddt0 : ℚ
  xldot0 : ℚ
  meanAnomoly : ℚ
  ascendingNode : ℚ
  argumentPerigee : ℚ
  eccentricity : ℚ
  inclination : ℚ
  meanMotion : ℚ
  bstar : ℚ
  recoveredSemiMajorAxis : ℚ
  recoveredMeanMotion : ℚ
  perigee : ℚ
  period : ℚ
deriving DecidableEq

/-- The mutable integrator fields of class SGP4 (SGP4.h lines 150-167):
`d_atime_`, `d_xli_`, `d_xni_` and the cached dot terms for the current
`d_atime_`. -/
structure DsIntState where
  atime : ℚ
  xli : ℚ
  xni : ℚ
  xndott : ℚ
  xnddtt : ℚ
  xldott : ℚ
deriving DecidableEq

/-- The input data extracted from the external Tle and Julian collaborators in
SetTle (lines 62-69): raw elements, plus the two epoch-derived quantities
produced by the external Julian class (`ToGreenwichSiderealTime` and
`FromJan1_12h_1900`). -/
structure TleIn where
  meanAnomaly : ℚ
  ascendingNode : ℚ
  argumentPerigee : ℚ
  eccentricity : ℚ
  inclination : ℚ
  meanMotionRev : ℚ
  bstar : ℚ
  epochGsto : ℚ
  epochDay : ℚ
deriving DecidableEq

/-- The all-zero reset of every member performed by ResetGlobalVariables
(lines 1243-1290): `first_run_` is set to true, the flags to false, every
numeric field to zero. -/
def resetConsts : SGP4Consts where
  firstRun := true
  useSimpleModel := false
  useDeepSpace := false
  cosio := 0
  sinio := 0
  eta := 0
  t2cof := 0
  a3ovk2 := 0
  x1mth2 := 0
  x3thm1 := 0
  x7thm1 := 0
  aycof := 0
  xlcof := 0
  xnodcf := 0
  c1 := 0
  c4 := 0
  omgdot := 0
  xnodot := 0
  xmdot := 0
  c5 := 0
  omgcof := 0
  xmcof := 0
  delmo := 0
  sinmo := 0
  d2 := 0
  d3 := 0
  d4 := 0
  t3cof := 0
  t4cof := 0
  t5cof := 0
  gsto := 0
  zmol := 0
  zmos := 0
  resonanceFlag := false
  synchronousFlag := false
  sse := 0
  ssi := 0
  ssl := 0
  ssg := 0
  ssh := 0
  se2 := 0
  si2 := 0
  sl2 := 0
  sgh2 := 0
  sh2 := 0
  se3 := 0
  si3 := 0
  sl3 := 0
  sgh3 := 0
  sh3 := 0
  sl4 := 0
  sgh4 := 0
  ee2 := 0
  e3 := 0
  xi2 := 0
  xi3 := 0
  xl2 := 0
  xl3 := 0
  xl4 := 0
  xgh2 := 0
  xgh3 := 0
  xgh4 := 0
  xh2 := 0
  xh3 := 0
  d2201 := 0
  d2211 := 0
  d3210 := 0
  d3222 := 0
  d4410 := 0
  d4422 := 0
  d5220 := 0
  d5232 := 0
  d5421 := 0
  d5433 := 0
  del1 := 0
  del2 := 0
  del3 := 0
  xfact := 0
  xlamo := 0
  xndot0 := 0
  xnddt0 := 0
  xldot0 := 0
  meanAnomoly := 0
  ascendingNode := 0
  argumentPerigee := 0
  eccentricity := 0
  inclination := 0
  meanMotion := 0
  bstar := 0
  recoveredSemiMajorAxis := 0
  recoveredMeanMotion := 0
  perigee := 0
  period := 0

/-- The integrator state after ResetGlobalVariables: every field zero. -/
def zeroIntState : DsIntState := ⟨0, 0, 0, 0, 0, 0⟩

/-- The element intake checks of SetTle, lines 74-80, verbatim: note that the
second test reads `inclination_ < 0.0 or eccentricity_ > PI` in the source. -/
def elementCheck (ecc incl : ℚ) : Option SatErr :=
  if ecc < 0 ∨ ecc > 1 - 1.0e-3 then some SatErr.eccOutOfRange
  else if incl < 0 ∨ ecc > PIq then some SatErr.inclOutOfRange
  else none

/-- The altitude-dependent selection of s4 and qoms24 in Initialize,
lines 134-147. The returned s4 is the final value in Earth-radius units. -/
def s4qoms24 (perigee : ℚ) : ℚ × ℚ :=
  if perigee < 156 then
    let s4km := if perigee < 98 then (20 : ℚ) else perigee - 78
    (s4km / XKMPER + AEq, ((120 - s4km) * AEq / XKMPER) ^ (4 : ℕ))
  else (Sconst, QOMS2T)

/-- The eccentricity validation and clamp applied after the secular drag
update, identical in FindPositionSDP4 (lines 301-308) and FindPositionSGP4
(lines 427-434). -/
def checkClampEcc (e : ℚ) : Except SatErr ℚ :=
  if 1 ≤ e ∨ e < -0.001 then Except.error SatErr.err1
  else if e < 1.0e-6 then Except.ok 1.0e-6
  else Except.ok e

/-- DeepSpaceCalcDotTerms, lines 1173-1223: the resonance dot terms at the
current integrator state.  Returns (xndot, xnddt, xldot); as in the source
the returned xnddt is already multiplied by xldot (line 1222). -/
def dsCalcDotTerms (c : SGP4Consts) (O : Oracles) (s : DsIntState) : ℚ × ℚ × ℚ :=
  let xndot :=
    if c.synchronousFlag then
      c.del1 * O.sin (s.xli - FASX2) +
        c.del2 * O.sin (2 * (s.xli - FASX4)) +
        c.del3 * O.sin (3 * (s.xli - FASX6))
    else
      let xomi := c.argumentPerigee + c.omgdot * s.atime
      let x2omi := xomi + xomi
      let x2li := s.xli + s.xli
      c.d2201 * O.sin (x2omi + s.xli - G22)
        + c.d2211 * O.sin (s.xli - G22)
        + c.d3210 * O.sin (xomi + s.xli - G32)
        + c.d3222 * O.sin (-xomi + s.xli - G32)
        + c.d4410 * O.sin (x2omi + x2li - G44)
        + c.d4422 * O.sin (x2li - G44)
        + c.d5220 * O.sin (xomi + s.xli - G52)
        + c.d5232 * O.sin (-xomi + s.xli - G52)
        + c.d5421 * O.sin (xomi + x2li - G54)
        + c.d5433 * O.sin (-xomi + x2li - G54)
  let xnddt :=
    if c.synchronousFlag then
      c.del1 * O.cos (s.xli - FASX2) +
        2 * c.del2 * O.cos (2 * (s.xli - FASX4)) +
        3 * c.del3 * O.cos (3 * (s.xli - FASX6))
    else
      let xomi := c.argumentPerigee + c.omgdot * s.atime
      let x2omi := xomi + xomi
      let x2li := s.xli + s.xli
      c.d2201 * O.cos (x2omi + s.xli - G22)
        + c.d2211 * O.cos (s.xli - G22)
        + c.d3210 * O.cos (xomi + s.xli - G32)
        + c.d3222 * O.cos (-xomi + s.xli - G32)
        + c.d5220 * O.cos (xomi + s.xli - G52)
        + c.d5232 * O.cos (-xomi + s.xli - G52)
        + 2 * (c.d4410 * O.cos (x2omi + x2li - G44)
        + c.d4422 * O.cos (x2li - G44)
        + c.d5421 * O.cos (xomi + x2li - G54)
        + c.d5433 * O.cos (-xomi + x2li - G54))
  let xldot := s.xni + c.xfact
  (xndot, xnddt * xldot, xldot)

/-- One integrator step of DeepSpaceSecular: DeepSpaceIntegrator
(lines 1228-1241, with STEP2 = 259200) applied to the cached dot terms,
followed by the recomputation of the dot terms at the new state
(line 1151). -/
def dsSecStep (c : SGP4Consts) (O : Oracles) (delt : ℚ) (s : DsIntState) : DsIntState :=
  let xli1 := s.xli + s.xldott * delt + s.xndott * 259200
  let xni1 := s.xni + s.xndott * delt + s.xnddtt * 259200
  let atime1 := s.atime + delt
  let d := dsCalcDotTerms c O ⟨atime1, xli1, xni1, s.xndott, s.xnddtt, s.xldott⟩
  ⟨atime1, xli1, xni1, d.1, d.2.1, d.2.2⟩

/-- The epoch restart state written by the restart branch of DeepSpaceSecular
(lines 1108-1124): atime = 0, xli = xlamo, xni = the recovered mean motion,
dot caches restored to their precomputed epoch values. -/
def resetIntState (c : SGP4Consts) : DsIntState :=
  ⟨0, c.xlamo, c.recoveredMeanMotion, c.xndot0, c.xnddt0, c.xldot0⟩

/-- The restart test of DeepSpaceSecular, lines 1108-1110. -/
def restartCond (t : ℚ) (s : DsIntState) : Prop :=
  |t| < 720 ∨ t * s.atime ≤ 0 ∨ |t| < |s.atime|

instance (t : ℚ) (s : DsIntState) : Decidable (restartCond t s) := by
  unfold restartCond
  infer_instance

/-- The catch-up loop of DeepSpaceSecular (lines 1132-1155), written with an
explicit iteration budget.  The loop body runs only while the source loop
condition `fabs(t - atime) >= 720` holds, so for any budget at least as large
as the actual number of iterations of the source loop this function computes
exactly what the source loop computes; DeepSpaceSecular below passes the
budget `(floor (fabs ft / 720)).toNat`, which is proved sufficient by the
theorems on the loop. -/
def dsSecLoop (c : SGP4Consts) (O : Oracles) (delt t : ℚ) : ℕ → DsIntState → DsIntState
  | 0, s => s
  | n + 1, s =>
      if 720 ≤ |t - s.atime| then dsSecLoop c O delt t n (dsSecStep c O delt s) else s

/-- The stateful part of DeepSpaceSecular for resonant orbits
(lines 1108-1155): optional restart from epoch, then the catch-up loop with
the fixed step direction chosen from the sign of `t - atime` (lines 1138-1140).
Returns the integrator state at the final interpolation point. -/
def dsResonanceCore (c : SGP4Consts) (O : Oracles) (t : ℚ) (s : DsIntState) : DsIntState :=
  let s1 := if restartCond t s then resetIntState c else s
  let ft := t - s1.atime
  let delt : ℚ := if 0 ≤ ft then 720 else -720
  dsSecLoop c O delt t (⌊|ft| / 720⌋).toNat s1

/-- The six by-reference outputs of DeepSpaceSecular. -/
structure SecOut where
  xll : ℚ
  omgasm : ℚ
  xnodes : ℚ
  em : ℚ
  xinc : ℚ
  xn : ℚ
deriving DecidableEq

/-- DeepSpaceSecular, lines 1088-1168: zeroth-order lunar/solar secular rates,
early return for non-resonant orbits, restart logic plus catch-up loop
(through dsResonanceCore), and the final interpolation. -/
def deepSpaceSecular (c : SGP4Consts) (O : Oracles) (t : ℚ)
    (xll omgasm xnodes em xinc xn : ℚ) (s : DsIntState) : SecOut × DsIntState :=
  let xll1 := xll + c.ssl * t
  let omg1 := omgasm + c.ssg * t
  let xno1 := xnodes + c.ssh * t
  let em1 := em + c.sse * t
  let xinc1 := xinc + c.ssi * t
  if c.resonanceFlag = false then (⟨xll1, omg1, xno1, em1, xinc1, xn⟩, s)
  else
    let s2 := dsResonanceCore c O t s
    let ft := t - s2.atime
    let xnOut := s2.xni + s2.xndott * ft + s2.xnddtt * ft * ft * 0.5
    let xl := s2.xli + s2.xldott * ft + s2.xndott * ft * ft * 0.5
    let temp := -xno1 + c.gsto + t * THDTq
    let xllOut := if c.synchronousFlag then xl + temp - omg1 else xl + temp + temp
    (⟨xllOut, omg1, xno1, em1, xinc1, xnOut⟩, s2)

/-- The five outputs of DeepSpaceCalculateLunarSolarTerms. -/
structure LSTerms where
  pe : ℚ
  pinc : ℚ
  pl : ℚ
  pgh : ℚ
  ph : ℚ
deriving DecidableEq

/-- The body of DeepSpaceCalculateLunarSolarTerms (lines 940-988) evaluated at
given solar and lunar arguments `zmSolar` and `zmLunar`. -/
def lunarSolarTermsEval (c : SGP4Consts) (O : Oracles) (zmSolar zmLunar : ℚ) : LSTerms :=
  let zfS := zmSolar + 2 * ZES * O.sin zmSolar
  let sinzfS := O.sin zfS
  let f2S := 0.5 * sinzfS * sinzfS - 0.25
  let f3S := -0.5 * sinzfS * O.cos zfS
  let ses := c.se2 * f2S + c.se3 * f3S
  let sis := c.si2 * f2S + c.si3 * f3S
  let sls := c.sl2 * f2S + c.sl3 * f3S + c.sl4 * sinzfS
  let sghs := c.sgh2 * f2S + c.sgh3 * f3S + c.sgh4 * sinzfS
  let shs := c.sh2 * f2S + c.sh3 * f3S
  let zfL := zmLunar + 2 * ZEL * O.sin zmLunar
  let sinzfL := O.sin zfL
  let f2L := 0.5 * sinzfL * sinzfL - 0.25
  let f3L := -0.5 * sinzfL * O.cos zfL
  let sel := c.ee2 * f2L + c.e3 * f3L
  let sil := c.xi2 * f2L + c.xi3 * f3L
  let sll := c.xl2 * f2L + c.xl3 * f3L + c.xl4 * sinzfL
  let sghl := c.xgh2 * f2L + c.xgh3 * f3L + c.xgh4 * sinzfL
  let shl := c.xh2 * f2L + c.xh3 * f3L
  ⟨ses + sel, sis + sil, sls + sll, sghs + sghl, shs + shl⟩

/-- DeepSpaceCalculateLunarSolarTerms, lines 940-988: the solar argument is
`zmos + ZNS * t` and the lunar argument `zmol + ZNL * t`, except that while
`first_run_` is true both are forced to their epoch values
(lines 951-953 and 967-969). -/
def deepSpaceCalculateLunarSolarTerms (c : SGP4Consts) (O : Oracles) (t : ℚ) : LSTerms :=
  lunarSolarTermsEval c O
    (if c.firstRun then c.zmos else c.zmos + ZNS * t)
    (if c.firstRun then c.zmol else c.zmol + ZNL * t)

/-- The five by-reference element outputs of DeepSpacePeriodics. -/
structure PerOut where
  em : ℚ
  xinc : ℚ
  omgasm : ℚ
  xnodes : ℚ
  xll : ℚ
deriving DecidableEq

/-- DeepSpacePeriodics, lines 993-1083: apply the lunar/solar periodic terms,
directly for inclinations at least 0.2 rad and through the Lyddane
modification below that; while `first_run_` is true nothing is applied
(line 1010). -/
def deepSpacePeriodics (c : SGP4Consts) (O : Oracles) (t : ℚ)
    (em xinc omgasm xnodes xll : ℚ) : PerOut :=
  let p := deepSpaceCalculateLunarSolarTerms c O t
  if c.firstRun then ⟨em, xinc, omgasm, xnodes, xll⟩
  else
    let xinc1 := xinc + p.pinc
    let em1 := em + p.pe
    let sinis := O.sin xinc1
    let cosis := O.cos xinc1
    if 0.2 ≤ xinc1 then
      let tmpPh := p.ph / sinis
      ⟨em1, xinc1, omgasm + p.pgh - cosis * tmpPh, xnodes + tmpPh, xll + p.pl⟩
    else
      let sinok := O.sin xnodes
      let cosok := O.cos xnodes
      let alfdp := sinis * sinok + (p.ph * cosok + p.pinc * cosis * sinok)
      let betdp := sinis * cosok + (-p.ph * sinok + p.pinc * cosis * cosok)
      let xnodes1 :=
        let fm := fmodq xnodes TWOPIq
        if fm < 0 then fm + TWOPIq else fm
      let xls := xll + omgasm + cosis * xnodes1 + (p.pl + p.pgh - p.pinc * xnodes1 * sinis)
      let xnodes2 :=
        let a2 := O.atan2 alfdp betdp
        if a2 < 0 then a2 + TWOPIq else a2
      let xnodes3 :=
        if |xnodes1 - xnodes2| > PIq then
          (if xnodes2 < xnodes1 then xnodes2 + TWOPIq else xnodes2 - TWOPIq)
        else xnodes2
      let xll1 := xll + p.pl
      ⟨em1, xinc1, xls - xll1 - cosis * xnodes3, xnodes3, xll1⟩

/-- The loop state of the Kepler solver in CalculateFinalPositionVelocity:
the iterate `epw` together with the trigonometric quantities assigned on the
last executed loop body (lines 481-499), and the number of loop bodies
executed. -/
structure KepSt where
  epw : ℚ
  sinepw : ℚ
  cosepw : ℚ
  ecose : ℚ
  esine : ℚ
  iters : ℕ
deriving DecidableEq

/-- The Newton-Raphson loop of CalculateFinalPositionVelocity
(lines 493-530): the budget counts the remaining of the 10 permitted
iterations and `i` is the C loop index; the loop stops early exactly when
`fabs f < 1e-12` (line 503), in which case `epw` is left at its current
value; iteration 0 clamps the first-order correction to `mx`
(lines 516-520), later iterations use the second-order correction
(line 522). -/
def keplerLoop (O : Oracles) (capu axn ayn mx : ℚ) : ℕ → ℕ → KepSt → KepSt
  | 0, _, st => st
  | fuel + 1, i, st =>
      let sinepw := O.sin st.epw
      let cosepw := O.cos st.epw
      let ecose := axn * cosepw + ayn * sinepw
      let esine := axn * sinepw - ayn * cosepw
      let f := capu - st.epw + esine
      if |f| < 1.0e-12 then ⟨st.epw, sinepw, cosepw, ecose, esine, i + 1⟩
      else
        let fdot := 1 - ecose
        let d1 := f / fdot
        let delta :=
          if i = 0 then
            (if d1 > mx then mx else if d1 < -mx then -mx else d1)
          else f / (fdot + 0.5 * esine * d1)
        keplerLoop O capu axn ayn mx fuel (i + 1) ⟨st.epw + delta, sinepw, cosepw, ecose, esine, i + 1⟩

/-- The Kepler solver: at most 10 iterations starting from `epw = capu`
(lines 481-495). -/
def keplerSolve (O : Oracles) (capu axn ayn mx : ℚ) : KepSt :=
  keplerLoop O capu axn ayn mx 10 0 ⟨capu, 0, 0, 0, 0, 0⟩

/-- CalculateFinalPositionVelocity, lines 448-603: long-period periodics,
Kepler solution, short-period corrections, orientation vectors and the final
Cartesian state. -/
def calculateFinalPositionVelocity (O : Oracles) (tsince e a omega xl xnode xincl
    xlcof aycof x3thm1 x1mth2 x7thm1 cosio sinio : ℚ) : Except SatErr Eci :=
  let beta := O.sqrt (1 - e * e)
  let xn := XKEq O / O.pow a 1.5
  let axn := e * O.cos omega
  let tempA := 1 / (a * beta * beta)
  let xll := tempA * xlcof * axn
  let aynl := tempA * aycof
  let xlt := xl + xll
  let ayn := e * O.sin omega + aynl
  let elsq := axn * axn + ayn * ayn
  let capu := fmodq (xlt - xnode) TWOPIq
  let mx := 1.25 * |O.sqrt elsq|
  let k := keplerSolve O capu axn ayn mx
  let tempB := 1 - elsq
  let pl := a * tempB
  if pl < 0 then Except.error SatErr.err4
  else
    let r := a * (1 - k.ecose)
    let invr := 1 / r
    let rdot := XKEq O * O.sqrt a * k.esine * invr
    let rfdot := XKEq O * O.sqrt pl * invr
    let tempC := a * invr
    let betal := O.sqrt tempB
    let tempD := 1 / (1 + betal)
    let cosu := tempC * (k.cosepw - axn + ayn * k.esine * tempD)
    let sinu := tempC * (k.sinepw - ayn - axn * k.esine * tempD)
    let u := O.atan2 sinu cosu
    let sin2u := 2 * sinu * cosu
    let cos2u := 2 * cosu * cosu - 1
    let tempE := 1 / pl
    let tempF := CK2 * tempE
    let tempG := tempF * tempE
    let rk := r * (1 - 1.5 * tempG * betal * x3thm1) + 0.5 * tempF * x1mth2 * cos2u
    let uk := u - 0.25 * tempG * x7thm1 * sin2u
    let xnodek := xnode + 1.5 * tempG * cosio * sin2u
    let xinck := xincl + 1.5 * tempG * cosio * sinio * cos2u
    let rdotk := rdot - xn * tempF * x1mth2 * sin2u
    let rfdotk := rfdot + xn * tempF * (x1mth2 * cos2u + 1.5 * x3thm1)
    if rk < 1 then Except.error SatErr.err6
    else
      let sinuk := O.sin uk
      let cosuk := O.cos uk
      let sinik := O.sin xinck
      let cosik := O.cos xinck
      let sinnok := O.sin xnodek
      let cosnok := O.cos xnodek
      let xmx := -sinnok * cosik
      let xmy := cosnok * cosik
      let ux := xmx * sinuk + cosnok * cosuk
      let uy := xmy * sinuk + sinnok * cosuk
      let uz := sinik * sinuk
      let vx := xmx * cosuk - cosnok * sinuk
      let vy := xmy * cosuk - sinnok * sinuk
      let vz := sinik * cosuk
      Except.ok
        ⟨tsince,
         ⟨rk * ux * XKMPER, rk * uy * XKMPER, rk * uz * XKMPER⟩,
         ⟨(rdotk * ux + rfdotk * vx) * XKMPER / 60,
          (rdotk * uy + rfdotk * vy) * XKMPER / 60,
          (rdotk * uz + rfdotk * vz) * XKMPER / 60⟩⟩

/-- FindPositionSGP4, lines 371-446: the near-space propagation path.
It reads no mutable state. -/
def findPositionSGP4 (c : SGP4Consts) (O : Oracles) (t : ℚ) : Except SatErr Eci :=
  let xmdf := c.meanAnomoly + c.xmdot * t
  let omgadf := c.argumentPerigee + c.omgdot * t
  let xnoddf := c.ascendingNode + c.xnodot * t
  let tsq := t * t
  let xnode := xnoddf + c.xnodcf * tsq
  let tempa0 := 1 - c.c1 * t
  let tempe0 := c.bstar * c.c4 * t
  let templ0 := c.t2cof * tsq
  let upd :=
    if c.useSimpleModel then (xmdf, omgadf, tempa0, tempe0, templ0)
    else
      let delomg := c.omgcof * t
      let delm := c.xmcof * ((1 + c.eta * O.cos xmdf) ^ (3 : ℕ) - c.delmo)
      let temp := delomg + delm
      let xmp1 := xmdf + temp
      let tcube := tsq * t
      let tfour := t * tcube
      (xmp1, omgadf - temp,
        tempa0 - c.d2 * tsq - c.d3 * tcube - c.d4 * tfour,
        tempe0 + c.bstar * c.c5 * (O.sin xmp1 - c.sinmo),
        templ0 + c.t3cof * tcube + tfour * (c.t4cof + t * c.t5cof))
  let xmp := upd.1
  let omega := upd.2.1
  let tempa := upd.2.2.1
  let tempe := upd.2.2.2.1
  let templ := upd.2.2.2.2
  let a := c.recoveredSemiMajorAxis * tempa ^ (2 : ℕ)
  let xl := xmp + omega + xnode + c.recoveredMeanMotion * templ
  if xl ≤ 0 then Except.error SatErr.err2xl
  else
    match checkClampEcc (c.eccentricity - tempe) with
    | Except.error er => Except.error er
    | Except.ok e2 =>
        calculateFinalPositionVelocity O t e2 a omega xl xnode c.inclination
          c.xlcof c.aycof c.x3thm1 c.x1mth2 c.x7thm1 c.cosio c.sinio

/-- The intermediate quantities of FindPositionSDP4 after the secular update
(lines 275-289). -/
structure Sdp4Mid where
  xmdf : ℚ
  omgadf : ℚ
  xnode : ℚ
  tempa : ℚ
  tempe : ℚ
  templ : ℚ
  em : ℚ
  xinc : ℚ
  xn : ℚ
deriving DecidableEq

/-- The secular stage of FindPositionSDP4 (lines 275-289): the common drag
terms, then DeepSpaceSecular applied to (xmdf, omgadf, xnode, e, xincl, xn).
This is the only place the deep-space path touches the mutable integrator
state. -/
def sdp4SecularStage (c : SGP4Consts) (O : Oracles) (t : ℚ) (s : DsIntState) :
    Sdp4Mid × DsIntState :=
  let xmdf := c.meanAnomoly + c.xmdot * t
  let omgadf := c.argumentPerigee + c.omgdot * t
  let xnoddf := c.ascendingNode + c.xnodot * t
  let tsq := t * t
  let xnode := xnoddf + c.xnodcf * tsq
  let tempa := 1 - c.c1 * t
  let tempe := c.bstar * c.c4 * t
  let templ := c.t2cof * tsq
  let os := deepSpaceSecular c O t xmdf omgadf xnode c.eccentricity c.inclination
    c.recoveredMeanMotion s
  (⟨os.1.xll, os.1.omgasm, os.1.xnodes, tempa, tempe, templ, os.1.em, os.1.xinc, os.1.xn⟩,
    os.2)

/-- The eccentricity after the secular drag update in FindPositionSDP4
(line 296), the value validated and clamped at lines 301-308. -/
def sdp4EccAfterDrag (c : SGP4Consts) (O : Oracles) (t : ℚ) (s : DsIntState) : ℚ :=
  (sdp4SecularStage c O t s).1.em - (sdp4SecularStage c O t s).1.tempe

/-- The eccentricity after DeepSpacePeriodics in FindPositionSDP4, the value
tested by the check at line 336.  When the preceding validation fails the
clamp result is irrelevant and 0 is used as a placeholder. -/
def sdp4EccAfterPeriodics (c : SGP4Consts) (O : Oracles) (t : ℚ) (s : DsIntState) : ℚ :=
  let m := (sdp4SecularStage c O t s).1
  let e2 := (checkClampEcc (m.em - m.tempe)).toOption.getD 0
  let xmam := m.xmdf + c.recoveredMeanMotion * m.templ
  (deepSpacePeriodics c O t e2 m.xinc m.omgadf m.xnode xmam).em

/-- The result value of FindPositionSDP4, lines 260-369. -/
def sdp4Result (c : SGP4Consts) (O : Oracles) (t : ℚ) (s : DsIntState) : Except SatErr Eci :=
  let m := (sdp4SecularStage c O t s).1
  if m.xn ≤ 0 then Except.error SatErr.err2xn
  else
    let a := O.pow (XKEq O / m.xn) TWOTHIRDq * m.tempa ^ (2 : ℕ)
    match checkClampEcc (m.em - m.tempe) with
    | Except.error er => Except.error er
    | Except.ok e2 =>
        let xmam := m.xmdf + c.recoveredMeanMotion * m.templ
        let po := deepSpacePeriodics c O t e2 m.xinc m.omgadf m.xnode xmam
        let fixi :=
          if po.xinc < 0 then (-po.xinc, po.xnodes + PIq, po.omgasm - PIq)
          else (po.xinc, po.xnodes, po.omgasm)
        let xincl2 := fixi.1
        let xnode2 := fixi.2.1
        let omega2 := fixi.2.2
        let xl := po.xll + omega2 + xnode2
        if po.em < 0 ∨ po.em > 1 then Except.error SatErr.err3
        else
          let psinio := O.sin xincl2
          let pcosio := O.cos xincl2
          let ptheta2 := pcosio * pcosio
          let px3thm1 := 3 * ptheta2 - 1
          let px1mth2 := 1 - ptheta2
          let px7thm1 := 7 * ptheta2 - 1
          let pxlcof :=
            if |pcosio + 1| > 1.5e-12 then
              0.125 * c.a3ovk2 * psinio * (3 + 5 * pcosio) / (1 + pcosio)
            else 0.125 * c.a3ovk2 * psinio * (3 + 5 * pcosio) / 1.5e-12
          let paycof := 0.25 * c.a3ovk2 * psinio
          calculateFinalPositionVelocity O t po.em a omega2 xl xnode2 xincl2
            pxlcof paycof px3thm1 px1mth2 px7thm1 pcosio psinio

/-- FindPositionSDP4, lines 260-369, as result plus post-call integrator
state; the state is mutated only inside DeepSpaceSecular, also when a later
check throws. -/
def findPositionSDP4 (c : SGP4Consts) (O : Oracles) (t : ℚ) (s : DsIntState) :
    Except SatErr Eci × DsIntState :=
  (sdp4Result c O t s, (sdp4SecularStage c O t s).2)

/-- FindPosition, lines 245-251: dispatch on the deep-space flag.  The
near-space path reads no mutable state and leaves it unchanged. -/
def findPosition (c : SGP4Consts) (O : Oracles) (t : ℚ) (s : DsIntState) :
    Except SatErr Eci × DsIntState :=
  if c.useDeepSpace then findPositionSDP4 c O t s else (findPositionSGP4 c O t, s)

/-- The values produced by one pass of the solar/lunar loop of
DeepSpaceInitialize (lines 685-790): the secular contributions se, si, sl,
sgh, shdq and the twelve periodic coefficients written into
`d_ee2_` .. `d_xh3_`. -/
structure DsIterOut where
  se : ℚ
  si : ℚ
  sl : ℚ
  sgh : ℚ
  shdq : ℚ
  ee2 : ℚ
  e3 : ℚ
  xi2 : ℚ
  xi3 : ℚ
  xl2 : ℚ
  xl3 : ℚ
  xl4 : ℚ
  xgh2 : ℚ
  xgh3 : ℚ
  xgh4 : ℚ
  xh2 : ℚ
  xh3 : ℚ
deriving DecidableEq

/-- One pass of the two-pass solar/lunar loop of DeepSpaceInitialize
(lines 685-758), evaluated at the geometry (zcosg, zsing, zcosi, zsini,
zcosh, zsinh) and constants (cc, zn, ze) of the pass. -/
def dsSolarLunarIteration (incl ecc eosq sinio cosio betao betao2 xnoi sing cosg : ℚ)
    (zcosg zsing zcosi zsini zcosh zsinh cc zn ze : ℚ) : DsIterOut :=
  let a1 := zcosg * zcosh + zsing * zcosi * zsinh
  let a3 := -zsing * zcosh + zcosg * zcosi * zsinh
  let a7 := -zcosg * zsinh + zsing * zcosi * zcosh
  let a8 := zsing * zsini
  let a9 := zsing * zsinh + zcosg * zcosi * zcosh
  let a10 := zcosg * zsini
  let a2 := cosio * a7 + sinio * a8
  let a4 := cosio * a9 + sinio * a10
  let a5 := -sinio * a7 + cosio * a8
  let a6 := -sinio * a9 + cosio * a10
  let x1 := a1 * cosg + a2 * sing
  let x2 := a3 * cosg + a4 * sing
  let x3 := -a1 * sing + a2 * cosg
  let x4 := -a3 * sing + a4 * cosg
  let x5 := a5 * sing
  let x6 := a6 * sing
  let x7 := a5 * cosg
  let x8 := a6 * cosg
  let z31 := 12 * x1 * x1 - 3 * x3 * x3
  let z32 := 24 * x1 * x2 - 6 * x3 * x4
  let z33 := 12 * x2 * x2 - 3 * x4 * x4
  let z1a := 3 * (a1 * a1 + a2 * a2) + z31 * eosq
  let z2a := 6 * (a1 * a3 + a2 * a4) + z32 * eosq
  let z3a := 3 * (a3 * a3 + a4 * a4) + z33 * eosq
  let z11 := -6 * a1 * a5 + eosq * (-24 * x1 * x7 - 6 * x3 * x5)
  let z12 := -6 * (a1 * a6 + a3 * a5) +
    eosq * (-24 * (x2 * x7 + x1 * x8) - 6 * (x3 * x6 + x4 * x5))
  let z13 := -6 * a3 * a6 + eosq * (-24 * x2 * x8 - 6 * x4 * x6)
  let z21 := 6 * a2 * a5 + eosq * (24 * x1 * x5 - 6 * x3 * x7)
  let z22 := 6 * (a4 * a5 + a2 * a6) +
    eosq * (24 * (x2 * x5 + x1 * x6) - 6 * (x4 * x7 + x3 * x8))
  let z23 := 6 * a4 * a6 + eosq * (24 * x2 * x6 - 6 * x4 * x8)
  let z1 := z1a + z1a + betao2 * z31
  let z2 := z2a + z2a + betao2 * z32
  let z3 := z3a + z3a + betao2 * z33
  let s3 := cc * xnoi
  let s2 := -0.5 * s3 / betao
  let s4 := s3 * betao
  let s1 := -15 * ecc * s4
  let s5 := x1 * x3 + x2 * x4
  let s6 := x2 * x3 + x1 * x4
  let s7 := x2 * x4 - x1 * x3
  let se := s1 * zn * s5
  let si := s2 * zn * (z11 + z13)
  let sl := -zn * s3 * (z1 + z3 - 14 - 6 * eosq)
  let sgh := s4 * zn * (z31 + z33 - 6)
  let shdq :=
    if incl < 5.2359877e-2 ∨ incl > PIq - 5.2359877e-2 then 0
    else (-zn * s2 * (z21 + z23)) / sinio
  { se := se, si := si, sl := sl, sgh := sgh, shdq := shdq,
    ee2 := 2 * s1 * s6, e3 := 2 * s1 * s7,
    xi2 := 2 * s2 * z12, xi3 := 2 * s2 * (z13 - z11),
    xl2 := -2 * s3 * z2, xl3 := -2 * s3 * (z3 - z1),
    xl4 := -2 * s3 * (-21 - 9 * eosq) * ze,
    xgh2 := 2 * s4 * z32, xgh3 := 2 * s4 * (z33 - z31), xgh4 := -18 * s4 * ze,
    xh2 := -2 * s2 * z22, xh3 := -2 * s2 * (z23 - z21) }

/-- The solar/lunar section of DeepSpaceInitialize (lines 639-797): lunar
geometry from the epoch day count, the solar pass, the copy of the solar
results into the s-prefixed fields (lines 764-780), the lunar pass with the
rotated geometry (lines 781-789), and the accumulation of the lunar secular
contributions (lines 792-796). -/
def dsInitLunarSolar (O : Oracles) (T : TleIn)
    (eosq sinio cosio betao betao2 : ℚ) (c : SGP4Consts) : SGP4Consts :=
  let sinq := O.sin c.ascendingNode
  let cosq := O.cos c.ascendingNode
  let sing := O.sin c.argumentPerigee
  let cosg := O.cos c.argumentPerigee
  let day := T.epochDay
  let xnodce := 4.5236020 - 9.2422029e-4 * day
  let xnodceT := fmodq xnodce TWOPIq
  let stem := O.sin xnodceT
  let ctem := O.cos xnodceT
  let zcosil := 0.91375164 - 0.03568096 * ctem
  let zsinil := O.sqrt (1 - zcosil * zcosil)
  let zsinhl := 0.089683511 * stem / zsinil
  let zcoshl := O.sqrt (1 - zsinhl * zsinhl)
  let cq := 4.7199672 + 0.22997150 * day
  let gam := 5.8351514 + 0.0019443680 * day
  let zmolV := fmod2p (cq - gam)
  let zx0 := 0.39785416 * stem / zsinil
  let zy := zcoshl * ctem + 0.91744867 * zsinhl * stem
  let zx1 := O.atan2 zx0 zy
  let zx := fmodq (gam + zx1 - xnodce) TWOPIq
  let zcosgl := O.cos zx
  let zsingl := O.sin zx
  let zmosV := fmod2p (6.2565837 + 0.017201977 * day)
  let xnoi := 1 / c.recoveredMeanMotion
  let o1 := dsSolarLunarIteration c.inclination c.eccentricity eosq sinio cosio
    betao betao2 xnoi sing cosg ZCOSGS ZSINGS ZCOSIS ZSINI cosq sinq C1SS ZNS ZES
  let cS := { c with
    zmol := zmolV, zmos := zmosV,
    sse := o1.se, ssi := o1.si, ssl := o1.sl,
    ssh := o1.shdq, ssg := o1.sgh - cosio * o1.shdq,
    se2 := o1.ee2, si2 := o1.xi2, sl2 := o1.xl2, sgh2 := o1.xgh2, sh2 := o1.xh2,
    se3 := o1.e3, si3 := o1.xi3, sl3 := o1.xl3, sgh3 := o1.xgh3, sh3 := o1.xh3,
    sl4 := o1.xl4, sgh4 := o1.xgh4 }
  let o2 := dsSolarLunarIteration c.inclination c.eccentricity eosq sinio cosio
    betao betao2 xnoi sing cosg zcosgl zsingl zcosil zsinil
    (zcoshl * cosq + zsinhl * sinq) (sinq * zcoshl - cosq * zsinhl) C1L ZNL ZEL
  { cS with
    sse := cS.sse + o2.se, ssi := cS.ssi + o2.si, ssl := cS.ssl + o2.sl,
    ssg := cS.ssg + (o2.sgh - cosio * o2.shdq), ssh := cS.ssh + o2.shdq,
    ee2 := o2.ee2, e3 := o2.e3, xi2 := o2.xi2, xi3 := o2.xi3,
    xl2 := o2.xl2, xl3 := o2.xl3, xl4 := o2.xl4,
    xgh2 := o2.xgh2, xgh3 := o2.xgh3, xgh4 := o2.xgh4,
    xh2 := o2.xh2, xh3 := o2.xh3 }

/-- The resonance section of DeepSpaceInitialize (lines 799-937): the
classification of the orbit, the resonance coefficients of the realized
branch, and the initialization of the integrator (lines 925-937) whenever a
resonance branch was taken. -/
def dsInitResonance (O : Oracles) (eosq sinio cosio theta2 xmdot omgdot xnodot : ℚ)
    (c : SGP4Consts) (s : DsIntState) : SGP4Consts × DsIntState :=
  let aqnv := 1 / c.recoveredSemiMajorAxis
  let xpidot := omgdot + xnodot
  if c.recoveredMeanMotion < 0.0052359877 ∧ c.recoveredMeanMotion > 0.0034906585 then
    let g200 := 1 + eosq * (-2.5 + 0.8125 * eosq)
    let g310 := 1 + 2 * eosq
    let g300 := 1 + eosq * (-6 + 6.60937 * eosq)
    let f220 := 0.75 * (1 + cosio) * (1 + cosio)
    let f311 := 0.9375 * sinio * sinio * (1 + 3 * cosio) - 0.75 * (1 + cosio)
    let f330 := 1.875 * ((1 + cosio) * (1 + cosio) * (1 + cosio))
    let del1a := 3 * c.recoveredMeanMotion * c.recoveredMeanMotion * aqnv * aqnv
    let del2v := 2 * del1a * f220 * g200 * Q22
    let del3v := 3 * del1a * f330 * g300 * Q33 * aqnv
    let del1v := del1a * f311 * g310 * Q31 * aqnv
    let xlamoV := c.meanAnomoly + c.ascendingNode + c.argumentPerigee - c.gsto
    let bfact := xmdot + xpidot - THDTq + c.ssl + c.ssg + c.ssh
    let cR := { c with
      resonanceFlag := true, synchronousFlag := true,
      del1 := del1v, del2 := del2v, del3 := del3v,
      xlamo := xlamoV, xfact := bfact - c.recoveredMeanMotion }
    let s1 : DsIntState := { s with atime := 0, xni := c.recoveredMeanMotion, xli := xlamoV }
    let d := dsCalcDotTerms cR O s1
    ({ cR with xndot0 := d.1, xnddt0 := d.2.1, xldot0 := d.2.2 }, s1)
  else if c.recoveredMeanMotion < 8.26e-3 ∨ c.recoveredMeanMotion > 9.24e-3 ∨
      c.eccentricity < 0.5 then
    ({ c with resonanceFlag := false, synchronousFlag := false }, s)
  else
    let ecc := c.eccentricity
    let eoc := ecc * eosq
    let g201 := -0.306 - (ecc - 0.64) * 0.440
    let gA :=
      if ecc ≤ 0.65 then
        (3.616 - 13.247 * ecc + 16.290 * eosq,
          -19.302 + 117.390 * ecc - 228.419 * eosq + 156.591 * eoc,
          -18.9068 + 109.7927 * ecc - 214.6334 * eosq + 146.5816 * eoc,
          -41.122 + 242.694 * ecc - 471.094 * eosq + 313.953 * eoc,
          -146.407 + 841.880 * ecc - 1629.014 * eosq + 1083.435 * eoc,
          -532.114 + 3017.977 * ecc - 5740.032 * eosq + 3708.276 * eoc)
      else
        (-72.099 + 331.819 * ecc - 508.738 * eosq + 266.724 * eoc,
          -346.844 + 1582.851 * ecc - 2415.925 * eosq + 1246.113 * eoc,
          -342.585 + 1554.908 * ecc - 2366.899 * eosq + 1215.972 * eoc,
          -1052.797 + 4758.686 * ecc - 7193.992 * eosq + 3651.957 * eoc,
          -3581.69 + 16178.11 * ecc - 24462.77 * eosq + 12422.52 * eoc,
          if ecc ≤ 0.715 then 1464.74 - 4664.75 * ecc + 3763.64 * eosq
          else -5149.66 + 29936.92 * ecc - 54087.36 * eosq + 31324.56 * eoc)
    let g211 := gA.1
    let g310 := gA.2.1
    let g322 := gA.2.2.1
    let g410 := gA.2.2.2.1
    let g422 := gA.2.2.2.2.1
    let g520 := gA.2.2.2.2.2
    let gB :=
      if ecc < 0.7 then
        (-919.2277 + 4988.61 * ecc - 9064.77 * eosq + 5542.21 * eoc,
          -822.71072 + 4568.6173 * ecc - 8491.4146 * eosq + 5337.524 * eoc,
          -853.666 + 4690.25 * ecc - 8624.77 * eosq + 5341.4 * eoc)
      else
        (-37995.78 + 161616.52 * ecc - 229838.2 * eosq + 109377.94 * eoc,
          -51752.104 + 218913.95 * ecc - 309468.16 * eosq + 146349.42 * eoc,
          -40023.88 + 170470.89 * ecc - 242699.48 * eosq + 115605.82 * eoc)
    let g533 := gB.1
    let g521 := gB.2.1
    let g532 := gB.2.2
    let sini2 := sinio * sinio
    let f220 := 0.75 * (1 + 2 * cosio + theta2)
    let f221 := 1.5 * sini2
    let f321 := 1.875 * sinio * (1 - 2 * cosio - 3 * theta2)
    let f322 := -1.875 * sinio * (1 + 2 * cosio - 3 * theta2)
    let f441 := 35 * sini2 * f220
    let f442 := 39.3750 * sini2 * sini2
    let f522 := 9.84375 * sinio * (sini2 * (1 - 2 * cosio - 5 * theta2)
      + 0.33333333 * (-2 + 4 * cosio + 6 * theta2))
    let f523 := sinio * (4.92187512 * sini2 * (-2 - 4 * cosio + 10 * theta2)
      + 6.56250012 * (1 + 2 * cosio - 3 * theta2))
    let f542 := 29.53125 * sinio * (2 - 8 * cosio + theta2 *
      (-12 + 8 * cosio + 10 * theta2))
    let f543 := 29.53125 * sinio * (-2 - 8 * cosio + theta2 *
      (12 + 8 * cosio - 10 * theta2))
    let xno2 := c.recoveredMeanMotion * c.recoveredMeanMotion
    let ainv2 := aqnv * aqnv
    let tempA := 3 * xno2 * ainv2
    let t22 := tempA * ROOT22
    let tempB := tempA * aqnv
    let t32 := tempB * ROOT32
    let tempC := tempB * aqnv
    let t44 := 2 * tempC * ROOT44
    let tempD := tempC * aqnv
    let t52 := tempD * ROOT52
    let t54 := 2 * tempD * ROOT54
    let xlamoV := c.meanAnomoly + c.ascendingNode + c.ascendingNode - c.gsto - c.gsto
    let bfact := xmdot + xnodot + xnodot - THDTq - THDTq + c.ssl + c.ssh + c.ssh
    let cR := { c with
      resonanceFlag := true, synchronousFlag := false,
      d2201 := t22 * f220 * g201, d2211 := t22 * f221 * g211,
      d3210 := t32 * f321 * g310, d3222 := t32 * f322 * g322,
      d4410 := t44 * f441 * g410, d4422 := t44 * f442 * g422,
      d5220 := t52 * f522 * g520, d5232 := t52 * f523 * g532,
      d5421 := t54 * f542 * g521, d5433 := t54 * f543 * g533,
      xlamo := xlamoV, xfact := bfact - c.recoveredMeanMotion }
    let s1 : DsIntState := { s with atime := 0, xni := c.recoveredMeanMotion, xli := xlamoV }
    let d := dsCalcDotTerms cR O s1
    ({ cR with xndot0 := d.1, xnddt0 := d.2.1, xldot0 := d.2.2 }, s1)

/-- DeepSpaceInitialize, lines 608-938: the solar/lunar section followed by
the resonance section, starting from the integrator state left by the reset
(all zero). -/
def deepSpaceInit (O : Oracles) (T : TleIn)
    (eosq sinio cosio betao theta2 betao2 xmdot omgdot xnodot : ℚ)
    (c : SGP4Consts) : SGP4Consts × DsIntState :=
  dsInitResonance O eosq sinio cosio theta2 xmdot omgdot xnodot
    (dsInitLunarSolar O T eosq sinio cosio betao betao2 c) zeroIntState

/-- Initialize, lines 116-243: mode flags, drag constant selection, the
common coefficient set, then the deep-space or near-space branch; the last
statement sets `first_run_` to false (line 242). -/
def initCoeffs (O : Oracles) (T : TleIn) (theta2 betao2 betao eosq : ℚ)
    (c : SGP4Consts) : SGP4Consts × DsIntState :=
  let cFlags :=
    if 225 ≤ c.period then { c with useDeepSpace := true }
    else { c with useDeepSpace := false, useSimpleModel := decide (c.perigee < 220) }
  let sq := s4qoms24 c.perigee
  let s4 := sq.1
  let qoms24 := sq.2
  let pinvsq := 1 / (c.recoveredSemiMajorAxis * c.recoveredSemiMajorAxis * betao2 * betao2)
  let tsi := 1 / (c.recoveredSemiMajorAxis - s4)
  let eta := c.recoveredSemiMajorAxis * c.eccentricity * tsi
  let etasq := eta * eta
  let eeta := c.eccentricity * eta
  let psisq := |1 - etasq|
  let coef := qoms24 * tsi ^ (4 : ℕ)
  let coef1 := coef / O.pow psisq 3.5
  let c2v := coef1 * c.recoveredMeanMotion * (c.recoveredSemiMajorAxis *
    (1 + 1.5 * etasq + eeta * (4 + etasq)) +
    0.75 * CK2 * tsi / psisq * c.x3thm1 * (8 + 3 * etasq * (8 + etasq)))
  let c1v := c.bstar * c2v
  let a3ovk2 := -XJ3 / CK2 * AEq ^ (3 : ℕ)
  let x1mth2 := 1 - theta2
  let c4v := 2 * c.recoveredMeanMotion * coef1 * c.recoveredSemiMajorAxis * betao2 *
    (eta * (2 + 0.5 * etasq) + c.eccentricity * (0.5 + 2 * etasq) -
    2 * CK2 * tsi / (c.recoveredSemiMajorAxis * psisq) *
    (-3 * c.x3thm1 * (1 - 2 * eeta + etasq * (1.5 - 0.5 * eeta)) +
    0.75 * x1mth2 * (2 * etasq - eeta * (1 + etasq)) * O.cos (2 * c.argumentPerigee)))
  let theta4 := theta2 * theta2
  let temp1 := 3 * CK2 * pinvsq * c.recoveredMeanMotion
  let temp2 := temp1 * CK2 * pinvsq
  let temp3 := 1.25 * CK4 * pinvsq * pinvsq * c.recoveredMeanMotion
  let xmdot := c.recoveredMeanMotion + 0.5 * temp1 * betao * c.x3thm1 +
    0.0625 * temp2 * betao * (13 - 78 * theta2 + 137 * theta4)
  let x1m5th := 1 - 5 * theta2
  let omgdot := -0.5 * temp1 * x1m5th +
    0.0625 * temp2 * (7 - 114 * theta2 + 395 * theta4) +
    temp3 * (3 - 36 * theta2 + 49 * theta4)
  let xhdot1 := -temp1 * c.cosio
  let xnodot := xhdot1 + (0.5 * temp2 * (4 - 19 * theta2) + 2 * temp3 *
    (3 - 7 * theta2)) * c.cosio
  let xnodcf := 3.5 * betao2 * xhdot1 * c1v
  let t2cof := 1.5 * c1v
  let xlcof :=
    if |c.cosio + 1| > 1.5e-12 then
      0.125 * a3ovk2 * c.sinio * (3 + 5 * c.cosio) / (1 + c.cosio)
    else 0.125 * a3ovk2 * c.sinio * (3 + 5 * c.cosio) / 1.5e-12
  let aycof := 0.25 * a3ovk2 * c.sinio
  let x7thm1 := 7 * theta2 - 1
  let cB := { cFlags with
    eta := eta, t2cof := t2cof, a3ovk2 := a3ovk2,
    x1mth2 := x1mth2, aycof := aycof, xlcof := xlcof, xnodcf := xnodcf,
    c1 := c1v, c4 := c4v, omgdot := omgdot, xnodot := xnodot, xmdot := xmdot,
    x7thm1 := x7thm1 }
  if cB.useDeepSpace then
    let cC := { cB with gsto := T.epochGsto }
    let r := deepSpaceInit O T eosq c.sinio c.cosio betao theta2 betao2
      xmdot omgdot xnodot cC
    ({ r.1 with firstRun := false }, r.2)
  else
    let c3v :=
      if c.eccentricity > 1.0e-4 then
        coef * tsi * a3ovk2 * c.recoveredMeanMotion * AEq * c.sinio / c.eccentricity
      else 0
    let c5v := 2 * coef1 * c.recoveredSemiMajorAxis * betao2 *
      (1 + 2.75 * (etasq + eeta) + eeta * etasq)
    let omgcof := c.bstar * c3v * O.cos c.argumentPerigee
    let xmcof :=
      if c.eccentricity > 1.0e-4 then -TWOTHIRDq * coef * c.bstar * AEq / eeta else 0
    let delmo := (1 + eta * O.cos c.meanAnomoly) ^ (3 : ℕ)
    let sinmo := O.sin c.meanAnomoly
    let cN1 := { cB with
      c5 := c5v, omgcof := omgcof, xmcof := xmcof,
      delmo := delmo, sinmo := sinmo }
    let cN2 :=
      if cN1.useSimpleModel then cN1
      else
        let c1sq := c1v * c1v
        let d2v := 4 * c.recoveredSemiMajorAxis * tsi * c1sq
        let tempD := d2v * tsi * c1v / 3
        let d3v := (17 * c.recoveredSemiMajorAxis + s4) * tempD
        let d4v := 0.5 * tempD * c.recoveredSemiMajorAxis * tsi *
          (221 * c.recoveredSemiMajorAxis + 31 * s4) * c1v
        { cN1 with
          d2 := d2v, d3 := d3v, d4 := d4v,
          t3cof := d2v + 2 * c1sq,
          t4cof := 0.25 * (3 * d3v + c1v * (12 * d2v + 10 * c1sq)),
          t5cof := 0.2 * (3 * d4v + 12 * c1v * d3v + 6 * d2v * d2v + 15 *
            c1sq * (2 * d2v + c1sq)) }
    ({ cN2 with firstRun := false }, zeroIntState)

/-- The successful continuation of SetTle (lines 52-114): reset, element
extraction, Brouwer recovery of mean motion and semi-major axis, perigee and
period, then Initialize. -/
def setTleBody (T : TleIn) (O : Oracles) : SGP4Consts × DsIntState :=
  let c0 := { resetConsts with
    meanAnomoly := T.meanAnomaly, ascendingNode := T.ascendingNode,
    argumentPerigee := T.argumentPerigee, eccentricity := T.eccentricity,
    inclination := T.inclination,
    meanMotion := T.meanMotionRev * TWOPIq / 1440,
    bstar := T.bstar }
  let a1 := O.pow (XKEq O / c0.meanMotion) TWOTHIRDq
  let cosio := O.cos c0.inclination
  let sinio := O.sin c0.inclination
  let theta2 := cosio * cosio
  let x3thm1 := 3 * theta2 - 1
  let eosq := c0.eccentricity * c0.eccentricity
  let betao2 := 1 - eosq
  let betao := O.sqrt betao2
  let temp := 1.5 * CK2 * x3thm1 / (betao * betao2)
  let delA1 := temp / (a1 * a1)
  let a0 := a1 * (1 - delA1 * (1 / 3 + delA1 * (1 + delA1 * 134 / 81)))
  let delA0 := temp / (a0 * a0)
  let rmm := c0.meanMotion / (1 + delA0)
  let rsma := a0 / (1 - delA0)
  let cA := { c0 with
    cosio := cosio, sinio := sinio, x3thm1 := x3thm1,
    recoveredMeanMotion := rmm, recoveredSemiMajorAxis := rsma,
    perigee := (rsma * (1 - c0.eccentricity) - AEq) * XKMPER,
    period := TWOPIq / rmm }
  initCoeffs O T theta2 betao2 betao eosq cA

/-- SetTle, lines 52-114: the element checks, then the successful
continuation. -/
def setTle (T : TleIn) (O : Oracles) : Except SatErr (SGP4Consts × DsIntState) :=
  match elementCheck T.eccentricity T.inclination with
  | some er => Except.error er
  | none => Except.ok (setTleBody T O)

/-- The resonance classification encoded by the two flags of the source:
`d_resonance_flag_` and `d_synchronous_flag_`. -/
inductive Resonance where
  | none : Resonance
  | synchronous : Resonance
  | geopotential12h : Resonance
deriving DecidableEq

/-- Read the resonance classification off the flags. -/
def resonanceOf (c : SGP4Consts) : Resonance :=
  if c.resonanceFlag then
    (if c.synchronousFlag then Resonance.synchronous else Resonance.geopotential12h)
  else Resonance.none

/-- The integrator state immediately after a successful SetTle: the resonance
branches of DeepSpaceInitialize write atime = 0, xli = xlamo,
xni = recovered mean motion (lines 929-932, with the dot caches for the
current time still at their reset value zero); otherwise every integrator
field keeps its reset value zero. -/
def initIntState (c : SGP4Consts) : DsIntState :=
  if c.resonanceFlag then ⟨0, c.xlamo, c.recoveredMeanMotion, 0, 0, 0⟩ else zeroIntState

/-- The integrator state after propagating at each time of `ts` in order,
starting from the post-SetTle state. -/
def propagateSeq (c : SGP4Consts) (O : Oracles) (ts : List ℚ) : DsIntState :=
  ts.foldl (fun s u => (findPosition c O u s).2) (initIntState c)

/-! Helper lemmas. -/

/-- The solar/lunar section only writes zmol/zmos, the ss fields and the
periodic coefficient fields; every other field is preserved. -/
theorem dsils_firstRun (O : Oracles) (T : TleIn) (eo si co bo b2 : ℚ) (c : SGP4Consts) :
    (dsInitLunarSolar O T eo si co bo b2 c).firstRun = c.firstRun := rfl

theorem dsils_useDeepSpace (O : Oracles) (T : TleIn) (eo si co bo b2 : ℚ) (c : SGP4Consts) :
    (dsInitLunarSolar O T eo si co bo b2 c).useDeepSpace = c.useDeepSpace := rfl

theorem dsils_resonanceFlag (O : Oracles) (T : TleIn) (eo si co bo b2 : ℚ) (c : SGP4Consts) :
    (dsInitLunarSolar O T eo si co bo b2 c).resonanceFlag = c.resonanceFlag := rfl

theorem dsils_synchronousFlag (O : Oracles) (T : TleIn) (eo si co bo b2 : ℚ) (c : SGP4Consts) :
    (dsInitLunarSolar O T eo si co bo b2 c).synchronousFlag = c.synchronousFlag := rfl

theorem dsils_recoveredMeanMotion (O : Oracles) (T : TleIn) (eo si co bo b2 : ℚ) (c : SGP4Consts) :
    (dsInitLunarSolar O T eo si co bo b2 c).recoveredMeanMotion = c.recoveredMeanMotion := rfl

theorem dsils_eccentricity (O : Oracles) (T : TleIn) (eo si co bo b2 : ℚ) (c : SGP4Consts) :
    (dsInitLunarSolar O T eo si co bo b2 c).eccentricity = c.eccentricity := rfl

theorem dsils_xlamo (O : Oracles) (T : TleIn) (eo si co bo b2 : ℚ) (c : SGP4Consts) :
    (dsInitLunarSolar O T eo si co bo b2 c).xlamo = c.xlamo := rfl

theorem dsils_del1 (O : Oracles) (T : TleIn) (eo si co bo b2 : ℚ) (c : SGP4Consts) :
    (dsInitLunarSolar O T eo si co bo b2 c).del1 = c.del1 := rfl

theorem dsils_del2 (O : Oracles) (T : TleIn) (eo si co bo b2 : ℚ) (c : SGP4Consts) :
    (dsInitLunarSolar O T eo si co bo b2 c).del2 = c.del2 := rfl

theorem dsils_del3 (O : Oracles) (T : TleIn) (eo si co bo b2 : ℚ) (c : SGP4Consts) :
    (dsInitLunarSolar O T eo si co bo b2 c).del3 = c.del3 := rfl

theorem dsils_d2201 (O : Oracles) (T : TleIn) (eo si co bo b2 : ℚ) (c : SGP4Consts) :
    (dsInitLunarSolar O T eo si co bo b2 c).d2201 = c.d2201 := rfl

theorem dsils_d2211 (O : Oracles) (T : TleIn) (eo si co bo b2 : ℚ) (c : SGP4Consts) :
    (dsInitLunarSolar O T eo si co bo b2 c).d2211 = c.d2211 := rfl

theorem dsils_d3210 (O : Oracles) (T : TleIn) (eo si co bo b2 : ℚ) (c : SGP4Consts) :
    (dsInitLunarSolar O T eo si co bo b2 c).d3210 = c.d3210 := rfl

theorem dsils_d3222 (O : Oracles) (T : TleIn) (eo si co bo b2 : ℚ) (c : SGP4Consts) :
    (dsInitLunarSolar O T eo si co bo b2 c).d3222 = c.d3222 := rfl

theorem dsils_d4410 (O : Oracles) (T : TleIn) (eo si co bo b2 : ℚ) (c : SGP4Consts) :
    (dsInitLunarSolar O T eo si co bo b2 c).d4410 = c.d4410 := rfl

theorem dsils_d4422 (O : Oracles) (T : TleIn) (eo si co bo b2 : ℚ) (c : SGP4Consts) :
    (dsInitLunarSolar O T eo si co bo b2 c).d4422 = c.d4422 := rfl

theorem dsils_d5220 (O : Oracles) (T : TleIn) (eo si co bo b2 : ℚ) (c : SGP4Consts) :
    (dsInitLunarSolar O T eo si co bo b2 c).d5220 = c.d5220 := rfl

theorem dsils_d5232 (O : Oracles) (T : TleIn) (eo si co bo b2 : ℚ) (c : SGP4Consts) :
    (dsInitLunarSolar O T eo si co bo b2 c).d5232 = c.d5232 := rfl

theorem dsils_d5421 (O : Oracles) (T : TleIn) (eo si co bo b2 : ℚ) (c : SGP4Consts) :
    (dsInitLunarSolar O T eo si co bo b2 c).d5421 = c.d5421 := rfl

theorem dsils_d5433 (O : Oracles) (T : TleIn) (eo si co bo b2 : ℚ) (c : SGP4Consts) :
    (dsInitLunarSolar O T eo si co bo b2 c).d5433 = c.d5433 := rfl

theorem dsils_xfact (O : Oracles) (T : TleIn) (eo si co bo b2 : ℚ) (c : SGP4Consts) :
    (dsInitLunarSolar O T eo si co bo b2 c).xfact = c.xfact := rfl

theorem dsils_xndot0 (O : Oracles) (T : TleIn) (eo si co bo b2 : ℚ) (c : SGP4Consts) :
    (dsInitLunarSolar O T eo si co bo b2 c).xndot0 = c.xndot0 := rfl

theorem dsils_xnddt0 (O : Oracles) (T : TleIn) (eo si co bo b2 : ℚ) (c : SGP4Consts) :
    (dsInitLunarSolar O T eo si co bo b2 c).xnddt0 = c.xnddt0 := rfl

theorem dsils_xldot0 (O : Oracles) (T : TleIn) (eo si co bo b2 : ℚ) (c : SGP4Consts) :
    (dsInitLunarSolar O T eo si co bo b2 c).xldot0 = c.xldot0 := rfl

/-- Initialize sets `first_run_` to false as its last statement (line 242),
in both its branches. -/
theorem setTleBody_firstRun (T : TleIn) (O : Oracles) :
    (setTleBody T O).1.firstRun = false := by
  simp only [setTleBody, initCoeffs]
  split
  · rfl
  · rfl

/-- A successful SetTle returns exactly the state computed by the successful
continuation. -/
theorem setTle_ok (T : TleIn) (O : Oracles) (cs : SGP4Consts × DsIntState)
    (hok : setTle T O = Except.ok cs) : cs = setTleBody T O := by
  unfold setTle at hok
  cases hc : elementCheck T.eccentricity T.inclination with
  | some er => rw [hc] at hok; exact Except.noConfusion hok
  | none => rw [hc] at hok; injection hok with h; exact h.symm

/-- C1: the claim reads SetTle as failing with OutOfRange exactly when
e < 0, e > 1 - 1e-3, i < 0 or i > pi, and in particular as rejecting an
input with i > pi and e in range.  The code (line 78) tests
`inclination_ < 0.0 || eccentricity_ > PI`, so the input e = 1/2, i = 4
(with 0 <= 1/2 <= 1 - 1e-3 in range and 4 > pi out of range) passes the
element checks although the claim requires it to be rejected: the inclination
upper-bound check tests the wrong member, which the spec itself flags as a
typo in its design notes. -/
theorem c1_inclination_check_accepts_large_inclination :
    elementCheck (1/2) 4 = none ∧ (0:ℚ) ≤ 1/2 ∧ (1/2 : ℚ) ≤ 1 - 1.0e-3 ∧ PIq < 4 := by
  norm_num [elementCheck, PIq]

/-- C7: the drag parameter selection of Initialize.  For perigee below
156 km, s4 is max(perigee - 78, 20) km, qoms24 = ((120 - s4)/XKMPER)^4
with s4 still in km, and s4 is then converted to Earth radii as
s4/XKMPER + 1; otherwise s4 = 1 + 78/XKMPER and
qoms24 = ((120 - 78)/XKMPER)^4. -/
theorem c7_s4_qoms24_selection (p : ℚ) :
    s4qoms24 p =
      if p < 156 then
        (max (p - 78) 20 / XKMPER + 1, ((120 - max (p - 78) 20) / XKMPER) ^ (4 : ℕ))
      else (1 + 78 / XKMPER, ((120 - 78 : ℚ) / XKMPER) ^ (4 : ℕ)) := by
  unfold s4qoms24 Sconst QOMS2T AEq Q0q S0q
  by_cases h : p < 156
  · rw [if_pos h, if_pos h]
    by_cases h2 : p < 98
    · rw [if_pos h2]
      have hm : max (p - 78) 20 = 20 := max_eq_right (by linarith)
      rw [hm]
      norm_num
    · rw [if_neg h2]
      have hm : max (p - 78) 20 = p - 78 := max_eq_left (by linarith)
      rw [hm]
      norm_num
  · rw [if_neg h, if_neg h]
    norm_num

/-- C6 counterexample: at e = -1/1000 exactly, the validation
`e >= 1.0 || e < -0.001` passes and the clamp `e < 1.0e-6` fires, so e is
replaced by 1e-6 although -1/1000 does not lie in the open interval
(-1e-3, 1e-6) and the claim then requires e to be left unchanged. -/
theorem c6_clamp_at_lower_boundary :
    checkClampEcc (-0.001) = Except.ok 1.0e-6 ∧ (1.0e-6 : ℚ) ≠ -0.001 := by
  norm_num [checkClampEcc]

/-- C6 (amended): in both propagation paths the post-drag eccentricity
validation fails with EccentricityOutOfRange exactly when e >= 1 or
e < -1e-3, and an e passing validation is replaced by max e 1e-6, i.e. it is
clamped to 1e-6 exactly on the half-open interval [-1e-3, 1e-6) and left
unchanged on [1e-6, 1).  Both FindPositionSDP4 and FindPositionSGP4 apply
checkClampEcc to the post-drag eccentricity. -/
theorem c6_ecc_validate_clamp (e : ℚ) :
    (checkClampEcc e = Except.error SatErr.err1 ↔ 1 ≤ e ∨ e < -0.001)
    ∧ (¬(1 ≤ e ∨ e < -0.001) → checkClampEcc e = Except.ok (max e 1.0e-6)) := by
  unfold checkClampEcc
  by_cases h : 1 ≤ e ∨ e < -0.001
  · rw [if_pos h]
    exact ⟨⟨fun _ => h, fun _ => rfl⟩, fun h2 => absurd h h2⟩
  · rw [if_neg h]
    refine ⟨⟨fun hc => ?_, fun hc => absurd hc h⟩, fun _ => ?_⟩
    · by_cases h2 : e < 1.0e-6
      · rw [if_pos h2] at hc
        exact Except.noConfusion hc
      · rw [if_neg h2] at hc
        exact Except.noConfusion hc
    · by_cases h2 : e < 1.0e-6
      · rw [if_pos h2, max_eq_right (le_of_lt h2)]
      · rw [if_neg h2, max_eq_left (le_of_not_lt h2)]

/-- C6 witness: the amended statement applied at e = 1/2. -/
theorem c6_witness :
    (checkClampEcc (1/2) = Except.error SatErr.err1 ↔ (1:ℚ) ≤ 1/2 ∨ (1/2 : ℚ) < -0.001)
    ∧ checkClampEcc (1/2) = Except.ok (max (1/2) 1.0e-6) :=
  ⟨(c6_ecc_validate_clamp (1/2)).1, (c6_ecc_validate_clamp (1/2)).2 (by norm_num)⟩

/-- A sample oracle assignment: every transcendental call returns a fixed
rational. -/
def sampleOracles : Oracles := ⟨fun _ => 0, fun _ => 0, fun _ => 1, fun _ _ => 0, fun _ _ => 1⟩

/-- A sample element set whose recovered mean motion falls in the 24h
synchronous resonance window under sampleOracles (one revolution per day). -/
def sampleDeepTle : TleIn := ⟨1, 1, 1, 1/10, 1/2, 1, 0, 0, 0⟩

/-- A post-initialization coefficient sample for the lunar/solar terms:
first-run cleared, solar epoch argument zmos = 1, solar coefficient
se2 = 1. -/
def sampleLsConsts : SGP4Consts := { resetConsts with firstRun := false, zmos := 1, se2 := 1 }

/-- Oracles for the lunar/solar counterexample: sin is the identity, cos is
zero. -/
def sampleLsOracles : Oracles := ⟨fun x => x, fun _ => 0, fun _ => 1, fun _ _ => 0, fun _ _ => 1⟩

/-- C2 counterexample: the claim says that on the very first propagation call
after set_elements the f2/f3/sin zf terms are evaluated at t = 0, gated by
first_run.  But Initialize clears first_run before returning (line 242), so
on the first propagation call the gate is already off and the lunar/solar
terms are evaluated at the requested time: with first_run = false the pe
term at t = 1440 differs from the pe term at t = 0. -/
theorem c2_first_call_uses_requested_time :
    (setTleBody sampleDeepTle sampleOracles).1.firstRun = false ∧
    (deepSpaceCalculateLunarSolarTerms sampleLsConsts sampleLsOracles 1440).pe ≠
      (deepSpaceCalculateLunarSolarTerms sampleLsConsts sampleLsOracles 0).pe := by
  refine ⟨setTleBody_firstRun _ _, ?_⟩
  norm_num [deepSpaceCalculateLunarSolarTerms, lunarSolarTermsEval, sampleLsConsts,
    sampleLsOracles, resetConsts, ZNS, ZES, ZNL, ZEL]

/-- C2 (amended): the boolean first_run gates evaluation of the lunar/solar
arguments at their epoch values, but Initialize clears first_run before any
propagation can run, so after a successful set_elements every propagation
call, including the very first, evaluates the solar argument at
zmos + ZNS * t and the lunar argument at zmol + ZNL * t for the requested t;
the t = 0 gating takes effect only while first_run is still true. -/
theorem c2_first_run_gate :
    (∀ (T : TleIn) (O : Oracles) (cs : SGP4Consts × DsIntState),
        setTle T O = Except.ok cs → cs.1.firstRun = false)
    ∧ (∀ (c : SGP4Consts) (O : Oracles) (t : ℚ), c.firstRun = true →
        deepSpaceCalculateLunarSolarTerms c O t = deepSpaceCalculateLunarSolarTerms c O 0)
    ∧ (∀ (c : SGP4Consts) (O : Oracles) (t : ℚ), c.firstRun = false →
        deepSpaceCalculateLunarSolarTerms c O t =
          lunarSolarTermsEval c O (c.zmos + ZNS * t) (c.zmol + ZNL * t)) := by
  refine ⟨?_, ?_, ?_⟩
  · intro T O cs hok
    rw [setTle_ok T O cs hok]
    exact setTleBody_firstRun T O
  · intro c O t h
    simp [deepSpaceCalculateLunarSolarTerms, h]
  · intro c O t h
    simp [deepSpaceCalculateLunarSolarTerms, h]

/-- C2 witness: the amended statement applied to the sample element set and
the sample lunar/solar coefficients at t = 1440. -/
theorem c2_witness :
    (setTleBody sampleDeepTle sampleOracles).1.firstRun = false ∧
    deepSpaceCalculateLunarSolarTerms sampleLsConsts sampleLsOracles 1440 =
      lunarSolarTermsEval sampleLsConsts sampleLsOracles
        (sampleLsConsts.zmos + ZNS * 1440) (sampleLsConsts.zmol + ZNL * 1440) :=
  ⟨c2_first_run_gate.1 sampleDeepTle sampleOracles (setTleBody sampleDeepTle sampleOracles)
      (by norm_num [setTle, elementCheck, sampleDeepTle, PIq]),
   c2_first_run_gate.2.2 sampleLsConsts sampleLsOracles 1440 rfl⟩

/-- Invariant of the Kepler loop: starting with iteration counter i, at most
`fuel` more loop bodies run, and if fewer than `fuel` more run then the last
evaluated residual f satisfied the exit tolerance. -/
theorem keplerLoop_bound (O : Oracles) (capu axn ayn mx : ℚ) :
    ∀ (fuel i : ℕ) (st : KepSt), st.iters = i →
      (keplerLoop O capu axn ayn mx fuel i st).iters ≤ i + fuel ∧
      ((keplerLoop O capu axn ayn mx fuel i st).iters < i + fuel →
        |capu - (keplerLoop O capu axn ayn mx fuel i st).epw +
          (keplerLoop O capu axn ayn mx fuel i st).esine| < 1.0e-12) := by
  intro fuel
  induction fuel with
  | zero =>
      intro i st h
      refine ⟨by simp [keplerLoop, h], fun hlt => ?_⟩
      simp [keplerLoop, h] at hlt
  | succ n ih =>
      intro i st h
      simp only [keplerLoop]
      split
      case isTrue hf =>
        constructor
        · show i + 1 ≤ i + (n + 1)
          omega
        · intro _
          exact hf
      case isFalse hf =>
        constructor
        · exact le_trans (ih (i + 1) _ rfl).1 (by omega)
        · intro hlt
          refine (ih (i + 1) _ rfl).2 ?_
          omega

/-- Convergence on the very first iteration: if the residual at the initial
iterate epw = capu is already below the tolerance, the loop exits after one
body. -/
theorem keplerSolve_converged (O : Oracles) (capu axn ayn mx : ℚ)
    (h : |capu - capu + (axn * O.sin capu - ayn * O.cos capu)| < 1.0e-12) :
    (keplerSolve O capu axn ayn mx).iters = 1 := by
  unfold keplerSolve
  rw [show (10:ℕ) = 9 + 1 from rfl]
  rw [keplerLoop]
  simp only []
  rw [if_pos h]

/-- C10: the Kepler solver never reports failure to converge.  The loop runs
at most 10 bodies, it stops early only when the residual f satisfies
fabs f < 1e-12, and CalculateFinalPositionVelocity raises only the errors
pl < 0 (Error: #4) and rk < 1 (Error: #6) - there is no non-convergence
error, so after 10 iterations the routine silently proceeds with the
current iterate. -/
theorem c10_kepler_loop_bounds (O : Oracles) (capu axn ayn mx : ℚ) :
    (keplerSolve O capu axn ayn mx).iters ≤ 10
    ∧ ((keplerSolve O capu axn ayn mx).iters < 10 →
        |capu - (keplerSolve O capu axn ayn mx).epw + (keplerSolve O capu axn ayn mx).esine|
          < 1.0e-12)
    ∧ (∀ (tsince e a omga xl xnode xincl xlcof aycof x3 x1 x7 ci si : ℚ) (er : SatErr),
        calculateFinalPositionVelocity O tsince e a omga xl xnode xincl xlcof aycof
          x3 x1 x7 ci si = Except.error er →
        er = SatErr.err4 ∨ er = SatErr.err6) := by
  refine ⟨?_, ?_, ?_⟩
  · have h := keplerLoop_bound O capu axn ayn mx 10 0 ⟨capu, 0, 0, 0, 0, 0⟩ rfl
    simpa [keplerSolve] using h.1
  · intro hlt
    have h := keplerLoop_bound O capu axn ayn mx 10 0 ⟨capu, 0, 0, 0, 0, 0⟩ rfl
    exact h.2 (by simpa [keplerSolve] using hlt)
  · intro tsince e a omga xl xnode xincl xlcof aycof x3 x1 x7 ci si er hE
    simp only [calculateFinalPositionVelocity] at hE
    split at hE
    · injection hE with h2
      exact Or.inl h2.symm
    · split at hE
      · injection hE with h2
        exact Or.inr h2.symm
      · exact Except.noConfusion hE

/-- The resonance section does not change the mode flags. -/
theorem dsir_useDeepSpace (O : Oracles) (eo si co th xm og xn : ℚ) (c : SGP4Consts)
    (s : DsIntState) :
    (dsInitResonance O eo si co th xm og xn c s).1.useDeepSpace = c.useDeepSpace := by
  simp only [dsInitResonance]
  split
  · rfl
  · split
    · rfl
    · rfl

/-- The resonance section does not change the recovered mean motion. -/
theorem dsir_recoveredMeanMotion (O : Oracles) (eo si co th xm og xn : ℚ) (c : SGP4Consts)
    (s : DsIntState) :
    (dsInitResonance O eo si co th xm og xn c s).1.recoveredMeanMotion =
      c.recoveredMeanMotion := by
  simp only [dsInitResonance]
  split
  · rfl
  · split
    · rfl
    · rfl

/-- The resonance section does not change the eccentricity. -/
theorem dsir_eccentricity (O : Oracles) (eo si co th xm og xn : ℚ) (c : SGP4Consts)
    (s : DsIntState) :
    (dsInitResonance O eo si co th xm og xn c s).1.eccentricity = c.eccentricity := by
  simp only [dsInitResonance]
  split
  · rfl
  · split
    · rfl
    · rfl

/-- The deep-space flag of the initialized record is exactly the period test
of lines 118-121. -/
theorem initCoeffs_useDeepSpace (O : Oracles) (T : TleIn) (th2 b2 bo eosq : ℚ)
    (c : SGP4Consts) :
    (initCoeffs O T th2 b2 bo eosq c).1.useDeepSpace = decide (225 ≤ c.period) := by
  by_cases hp : 225 ≤ c.period
  · simp [initCoeffs, deepSpaceInit, dsir_useDeepSpace, dsils_useDeepSpace, hp]
  · by_cases hq : c.perigee < 220 <;> simp [initCoeffs, hp, hq]

/-- Initialize does not change the recovered mean motion. -/
theorem initCoeffs_recoveredMeanMotion (O : Oracles) (T : TleIn) (th2 b2 bo eosq : ℚ)
    (c : SGP4Consts) :
    (initCoeffs O T th2 b2 bo eosq c).1.recoveredMeanMotion = c.recoveredMeanMotion := by
  by_cases hp : 225 ≤ c.period
  · simp [initCoeffs, deepSpaceInit, dsir_recoveredMeanMotion, dsils_recoveredMeanMotion, hp]
  · by_cases hq : c.perigee < 220 <;> simp [initCoeffs, hp, hq]

/-- The integrator state after Initialize equals (0, xlamo, n) exactly when a
resonance branch ran, provided the input record carries the reset values and
the recovered mean motion is nonzero. -/
theorem initCoeffs_c4 (O : Oracles) (T : TleIn) (th2 b2 bo eosq : ℚ) (c : SGP4Consts)
    (hc1 : c.resonanceFlag = false) (hc2 : c.synchronousFlag = false) (hc3 : c.xlamo = 0)
    (hn : c.recoveredMeanMotion ≠ 0) :
    (((initCoeffs O T th2 b2 bo eosq c).2.atime, (initCoeffs O T th2 b2 bo eosq c).2.xli,
      (initCoeffs O T th2 b2 bo eosq c).2.xni) =
      ((0:ℚ), (initCoeffs O T th2 b2 bo eosq c).1.xlamo,
       (initCoeffs O T th2 b2 bo eosq c).1.recoveredMeanMotion)) ↔
      resonanceOf (initCoeffs O T th2 b2 bo eosq c).1 ≠ Resonance.none := by
  by_cases hp : 225 ≤ c.period
  · by_cases h1 : c.recoveredMeanMotion < 0.0052359877 ∧ c.recoveredMeanMotion > 0.0034906585
    · simp [initCoeffs, deepSpaceInit, dsInitResonance, dsils_recoveredMeanMotion,
        dsils_eccentricity, dsils_xlamo, hp, h1, resonanceOf]
    · by_cases h2 : c.recoveredMeanMotion < 8.26e-3 ∨ c.recoveredMeanMotion > 9.24e-3 ∨
          c.eccentricity < 0.5
      · simp [initCoeffs, deepSpaceInit, dsInitResonance, dsils_recoveredMeanMotion,
          dsils_eccentricity, dsils_xlamo, dsils_resonanceFlag, hp, h1, h2, resonanceOf,
          hc1, hc3, zeroIntState, Prod.ext_iff, hn, Ne.symm hn]
      · simp [initCoeffs, deepSpaceInit, dsInitResonance, dsils_recoveredMeanMotion,
          dsils_eccentricity, dsils_xlamo, hp, h1, h2, resonanceOf]
  · by_cases hq : c.perigee < 220 <;>
      simp [initCoeffs, hp, hq, resonanceOf, hc1, hc3, zeroIntState, Prod.ext_iff,
        hn, Ne.symm hn]

set_option maxHeartbeats 2000000 in
/-- The resonance classification produced by Initialize on the deep-space
path, and the preservation of the reset zeros when no resonance branch
runs. -/
theorem initCoeffs_c5 (O : Oracles) (T : TleIn) (th2 b2 bo eosq : ℚ) (c : SGP4Consts)
    (hc1 : c.resonanceFlag = false) (hc2 : c.synchronousFlag = false)
    (hz1 : c.del1 = 0) (hz2 : c.del2 = 0) (hz3 : c.del3 = 0)
    (hz4 : c.d2201 = 0) (hz5 : c.d2211 = 0) (hz6 : c.d3210 = 0) (hz7 : c.d3222 = 0)
    (hz8 : c.d4410 = 0) (hz9 : c.d4422 = 0) (hz10 : c.d5220 = 0) (hz11 : c.d5232 = 0)
    (hz12 : c.d5421 = 0) (hz13 : c.d5433 = 0) (hz14 : c.xfact = 0) (hz15 : c.xlamo = 0)
    (hz16 : c.xndot0 = 0) (hz17 : c.xnddt0 = 0) (hz18 : c.xldot0 = 0)
    (hdeep : (initCoeffs O T th2 b2 bo eosq c).1.useDeepSpace = true) :
    (resonanceOf (initCoeffs O T th2 b2 bo eosq c).1 = Resonance.synchronous ↔
      0.0034906585 < (initCoeffs O T th2 b2 bo eosq c).1.recoveredMeanMotion ∧
        (initCoeffs O T th2 b2 bo eosq c).1.recoveredMeanMotion < 0.0052359877)
    ∧ (resonanceOf (initCoeffs O T th2 b2 bo eosq c).1 = Resonance.geopotential12h ↔
      8.26e-3 ≤ (initCoeffs O T th2 b2 bo eosq c).1.recoveredMeanMotion ∧
        (initCoeffs O T th2 b2 bo eosq c).1.recoveredMeanMotion ≤ 9.24e-3 ∧
        0.5 ≤ (initCoeffs O T th2 b2 bo eosq c).1.eccentricity)
    ∧ (resonanceOf (initCoeffs O T th2 b2 bo eosq c).1 = Resonance.none →
      (initCoeffs O T th2 b2 bo eosq c).1.del1 = 0 ∧
      (initCoeffs O T th2 b2 bo eosq c).1.del2 = 0 ∧
      (initCoeffs O T th2 b2 bo eosq c).1.del3 = 0 ∧
      (initCoeffs O T th2 b2 bo eosq c).1.d2201 = 0 ∧
      (initCoeffs O T th2 b2 bo eosq c).1.d2211 = 0 ∧
      (initCoeffs O T th2 b2 bo eosq c).1.d3210 = 0 ∧
      (initCoeffs O T th2 b2 bo eosq c).1.d3222 = 0 ∧
      (initCoeffs O T th2 b2 bo eosq c).1.d4410 = 0 ∧
      (initCoeffs O T th2 b2 bo eosq c).1.d4422 = 0 ∧
      (initCoeffs O T th2 b2 bo eosq c).1.d5220 = 0 ∧
      (initCoeffs O T th2 b2 bo eosq c).1.d5232 = 0 ∧
      (initCoeffs O T th2 b2 bo eosq c).1.d5421 = 0 ∧
      (initCoeffs O T th2 b2 bo eosq c).1.d5433 = 0 ∧
      (initCoeffs O T th2 b2 bo eosq c).1.xfact = 0 ∧
      (initCoeffs O T th2 b2 bo eosq c).1.xlamo = 0 ∧
      (initCoeffs O T th2 b2 bo eosq c).1.xndot0 = 0 ∧
      (initCoeffs O T th2 b2 bo eosq c).1.xnddt0 = 0 ∧
      (initCoeffs O T th2 b2 bo eosq c).1.xldot0 = 0 ∧
      (initCoeffs O T th2 b2 bo eosq c).2 = zeroIntState) := by
  have hp : 225 ≤ c.period := by
    by_contra hp
    rw [initCoeffs_useDeepSpace] at hdeep
    simp [hp] at hdeep
  have hk : (0.0052359877 : ℚ) < 8.26e-3 := by norm_num
  by_cases h1 : c.recoveredMeanMotion < 0.0052359877 ∧ c.recoveredMeanMotion > 0.0034906585
  · simp only [initCoeffs, deepSpaceInit, dsInitResonance, dsils_recoveredMeanMotion,
      dsils_eccentricity]
    simp [hp, h1, resonanceOf]
    intro ha _
    exfalso
    linarith [h1.1, hk]
  · by_cases h2 : c.recoveredMeanMotion < 8.26e-3 ∨ c.recoveredMeanMotion > 9.24e-3 ∨
        c.eccentricity < 0.5
    · simp only [initCoeffs, deepSpaceInit, dsInitResonance, dsils_recoveredMeanMotion,
        dsils_eccentricity]
      simp [hp, h1, h2, resonanceOf, dsils_del1, dsils_del2, dsils_del3, dsils_d2201,
        dsils_d2211, dsils_d3210, dsils_d3222, dsils_d4410, dsils_d4422, dsils_d5220,
        dsils_d5232, dsils_d5421, dsils_d5433, dsils_xfact, dsils_xlamo, dsils_xndot0,
        dsils_xnddt0, dsils_xldot0, hz1, hz2, hz3, hz4, hz5, hz6, hz7, hz8, hz9, hz10,
        hz11, hz12, hz13, hz14, hz15, hz16, hz17, hz18]
      constructor
      · intro ha
        by_contra hb
        push_neg at hb
        exact h1 ⟨hb, ha⟩
      · intro ha hb
        rcases h2 with h2 | h2 | h2
        · linarith
        · linarith
        · exact h2
    · push_neg at h2
      simp only [initCoeffs, deepSpaceInit, dsInitResonance, dsils_recoveredMeanMotion,
        dsils_eccentricity]
      simp [hp, h1, resonanceOf, h2.1, h2.2.1, h2.2.2, not_lt.mpr h2.1,
        not_lt.mpr h2.2.1, not_lt.mpr h2.2.2]
      intro ha
      linarith [h2.1, hk]

/-- C4: immediately after a successful set_elements, the integrator state
satisfies (atime, xli, xni) = (0, xlamo, recovered mean motion) if and only
if the resonance classification is not none: for every valid TLE (nonzero
recovered mean motion) classified none, including every near-space element
set, the post-init state differs from the triple (xni keeps its reset value
0), and for every resonant deep-space element set it equals it. -/
theorem c4_integrator_state_iff_resonance (T : TleIn) (O : Oracles)
    (cs : SGP4Consts × DsIntState) (hok : setTle T O = Except.ok cs)
    (hn : cs.1.recoveredMeanMotion ≠ 0) :
    ((cs.2.atime, cs.2.xli, cs.2.xni) =
      ((0:ℚ), cs.1.xlamo, cs.1.recoveredMeanMotion)) ↔
      resonanceOf cs.1 ≠ Resonance.none := by
  obtain rfl := setTle_ok T O cs hok
  simp only [setTleBody] at hn ⊢
  rw [initCoeffs_recoveredMeanMotion] at hn
  exact initCoeffs_c4 _ _ _ _ _ _ _ rfl rfl rfl hn

/-- C4 witness: the sample element set falls in the synchronous resonance
window, so both sides of the equivalence hold. -/
theorem c4_witness :
    (((setTleBody sampleDeepTle sampleOracles).2.atime,
      (setTleBody sampleDeepTle sampleOracles).2.xli,
      (setTleBody sampleDeepTle sampleOracles).2.xni) =
      ((0:ℚ), (setTleBody sampleDeepTle sampleOracles).1.xlamo,
       (setTleBody sampleDeepTle sampleOracles).1.recoveredMeanMotion)) ↔
      resonanceOf (setTleBody sampleDeepTle sampleOracles).1 ≠ Resonance.none :=
  c4_integrator_state_iff_resonance sampleDeepTle sampleOracles
    (setTleBody sampleDeepTle sampleOracles)
    (by norm_num [setTle, elementCheck, sampleDeepTle, PIq])
    (by
      simp only [setTleBody]
      rw [initCoeffs_recoveredMeanMotion]
      norm_num [sampleDeepTle, sampleOracles, XKEq, XKMPER, MUq, CK2, XJ2, AEq, TWOPIq, PIq])

/-- C5: for every deep-space element set the classification computed at init
is synchronous exactly when the recovered mean motion lies in
(0.0034906585, 0.0052359877) rad/min, geopotential-12h exactly when it lies
in [8.26e-3, 9.24e-3] and the eccentricity is at least 0.5, and none
otherwise, in which case the integrator is not initialized and the
resonance-only coefficient fields keep their reset value zero. -/
theorem c5_resonance_classification (T : TleIn) (O : Oracles)
    (cs : SGP4Consts × DsIntState) (hok : setTle T O = Except.ok cs)
    (hdeep : cs.1.useDeepSpace = true) :
    (resonanceOf cs.1 = Resonance.synchronous ↔
      0.0034906585 < cs.1.recoveredMeanMotion ∧ cs.1.recoveredMeanMotion < 0.0052359877)
    ∧ (resonanceOf cs.1 = Resonance.geopotential12h ↔
      8.26e-3 ≤ cs.1.recoveredMeanMotion ∧ cs.1.recoveredMeanMotion ≤ 9.24e-3 ∧
        0.5 ≤ cs.1.eccentricity)
    ∧ (resonanceOf cs.1 = Resonance.none →
      cs.1.del1 = 0 ∧ cs.1.del2 = 0 ∧ cs.1.del3 = 0 ∧ cs.1.d2201 = 0 ∧ cs.1.d2211 = 0 ∧
      cs.1.d3210 = 0 ∧ cs.1.d3222 = 0 ∧ cs.1.d4410 = 0 ∧ cs.1.d4422 = 0 ∧ cs.1.d5220 = 0 ∧
      cs.1.d5232 = 0 ∧ cs.1.d5421 = 0 ∧ cs.1.d5433 = 0 ∧ cs.1.xfact = 0 ∧ cs.1.xlamo = 0 ∧
      cs.1.xndot0 = 0 ∧ cs.1.xnddt0 = 0 ∧ cs.1.xldot0 = 0 ∧ cs.2 = zeroIntState) := by
  obtain rfl := setTle_ok T O cs hok
  simp only [setTleBody] at hdeep ⊢
  exact initCoeffs_c5 _ _ _ _ _ _ _ rfl rfl rfl rfl rfl rfl rfl rfl rfl rfl rfl rfl rfl
    rfl rfl rfl rfl rfl rfl rfl hdeep

/-- C5 witness: the sample element set is deep-space and synchronous. -/
theorem c5_witness :
    (resonanceOf (setTleBody sampleDeepTle sampleOracles).1 = Resonance.synchronous ↔
      0.0034906585 < (setTleBody sampleDeepTle sampleOracles).1.recoveredMeanMotion ∧
        (setTleBody sampleDeepTle sampleOracles).1.recoveredMeanMotion < 0.0052359877)
    ∧ (resonanceOf (setTleBody sampleDeepTle sampleOracles).1 = Resonance.geopotential12h ↔
      8.26e-3 ≤ (setTleBody sampleDeepTle sampleOracles).1.recoveredMeanMotion ∧
        (setTleBody sampleDeepTle sampleOracles).1.recoveredMeanMotion ≤ 9.24e-3 ∧
        0.5 ≤ (setTleBody sampleDeepTle sampleOracles).1.eccentricity)
    ∧ (resonanceOf (setTleBody sampleDeepTle sampleOracles).1 = Resonance.none →
      (setTleBody sampleDeepTle sampleOracles).1.del1 = 0 ∧
      (setTleBody sampleDeepTle sampleOracles).1.del2 = 0 ∧
      (setTleBody sampleDeepTle sampleOracles).1.del3 = 0 ∧
      (setTleBody sampleDeepTle sampleOracles).1.d2201 = 0 ∧
      (setTleBody sampleDeepTle sampleOracles).1.d2211 = 0 ∧
      (setTleBody sampleDeepTle sampleOracles).1.d3210 = 0 ∧
      (setTleBody sampleDeepTle sampleOracles).1.d3222 = 0 ∧
      (setTleBody sampleDeepTle sampleOracles).1.d4410 = 0 ∧
      (setTleBody sampleDeepTle sampleOracles).1.d4422 = 0 ∧
      (setTleBody sampleDeepTle sampleOracles).1.d5220 = 0 ∧
      (setTleBody sampleDeepTle sampleOracles).1.d5232 = 0 ∧
      (setTleBody sampleDeepTle sampleOracles).1.d5421 = 0 ∧
      (setTleBody sampleDeepTle sampleOracles).1.d5433 = 0 ∧
      (setTleBody sampleDeepTle sampleOracles).1.xfact = 0 ∧
      (setTleBody sampleDeepTle sampleOracles).1.xlamo = 0 ∧
      (setTleBody sampleDeepTle sampleOracles).1.xndot0 = 0 ∧
      (setTleBody sampleDeepTle sampleOracles).1.xnddt0 = 0 ∧
      (setTleBody sampleDeepTle sampleOracles).1.xldot0 = 0 ∧
      (setTleBody sampleDeepTle sampleOracles).2 = zeroIntState) :=
  c5_resonance_classification sampleDeepTle sampleOracles
    (setTleBody sampleDeepTle sampleOracles)
    (by norm_num [setTle, elementCheck, sampleDeepTle, PIq])
    (by
      simp only [setTleBody]
      rw [initCoeffs_useDeepSpace]
      norm_num [sampleDeepTle, sampleOracles, XKEq, XKMPER, MUq, CK2, XJ2, AEq, TWOPIq, PIq])

/-- C10 witness: at the zero inputs under sampleOracles the loop converges on
the first body, and at a = -1 the final stage fails with Error: #4. -/
theorem c10_witness :
    (keplerSolve sampleOracles 0 0 0 0).iters ≤ 10
    ∧ |0 - (keplerSolve sampleOracles 0 0 0 0).epw + (keplerSolve sampleOracles 0 0 0 0).esine|
        < 1.0e-12
    ∧ (SatErr.err4 = SatErr.err4 ∨ SatErr.err4 = SatErr.err6) :=
  ⟨(c10_kepler_loop_bounds sampleOracles 0 0 0 0).1,
   (c10_kepler_loop_bounds sampleOracles 0 0 0 0).2.1 (by
      rw [keplerSolve_converged sampleOracles 0 0 0 0 (by norm_num [sampleOracles])]
      norm_num),
   (c10_kepler_loop_bounds sampleOracles 0 0 0 0).2.2 0 0 (-1) 0 0 0 0 0 0 0 0 0 0 0
      SatErr.err4 (by
      norm_num [calculateFinalPositionVelocity, XKEq, fmodq, qtrunc, sampleOracles,
        CK2, XJ2, TWOPIq, PIq, XKMPER, MUq])⟩

/-- DeepSpaceIntegrator advances the integrator clock atime by exactly the
step delt (line 1239). -/
theorem dsSecStep_atime (c : SGP4Consts) (O : Oracles) (delt : ℚ) (s : DsIntState) :
    (dsSecStep c O delt s).atime = s.atime + delt := rfl

/-- Iterating the integrator step n times advances atime by n * delt. -/
theorem dsSecStep_iterate_atime (c : SGP4Consts) (O : Oracles) (delt : ℚ) :
    ∀ (n : ℕ) (s : DsIntState),
      ((dsSecStep c O delt)^[n] s).atime = s.atime + n * delt := by
  intro n
  induction n with
  | zero => intro s; simp
  | succ k ih =>
      intro s
      rw [Function.iterate_succ_apply, ih, dsSecStep_atime]
      push_cast
      ring

/-- The catch-up loop of DeepSpaceSecular with positive step, approaching t
from below: with any sufficient budget it runs exactly
floor((t - atime)/720) iterations, and the final clock lies within one
720-minute step below t. -/
theorem dsSecLoop_pos_char (c : SGP4Consts) (O : Oracles) (t : ℚ) :
    ∀ (n : ℕ) (s : DsIntState), 0 ≤ t - s.atime →
      (⌊(t - s.atime) / 720⌋).toNat ≤ n →
      dsSecLoop c O 720 t n s =
        (dsSecStep c O 720)^[(⌊(t - s.atime) / 720⌋).toNat] s ∧
      |t - (dsSecLoop c O 720 t n s).atime| < 720 := by
  intro n
  induction n with
  | zero =>
      intro s hge hle
      have hk : (⌊(t - s.atime) / 720⌋).toNat = 0 := Nat.le_zero.mp hle
      have hlt : t - s.atime < 720 := by
        by_contra hx
        push_neg at hx
        have h1 : (1 : ℤ) ≤ ⌊(t - s.atime) / 720⌋ := by
          rw [Int.le_floor]
          push_cast
          rw [le_div_iff (by norm_num : (0:ℚ) < 720)]
          linarith
        omega
      refine ⟨?_, ?_⟩
      · rw [hk]
        rfl
      · have hz : dsSecLoop c O 720 t 0 s = s := rfl
        rw [hz, abs_of_nonneg hge]
        exact hlt
  | succ k ih =>
      intro s hge hle
      by_cases hc : 720 ≤ |t - s.atime|
      · have hc2 : (720 : ℚ) ≤ t - s.atime := by rwa [abs_of_nonneg hge] at hc
        have hstep : (dsSecStep c O 720 s).atime = s.atime + 720 := rfl
        have hge2 : 0 ≤ t - (dsSecStep c O 720 s).atime := by
          rw [hstep]; linarith
        have hkpos : (1 : ℤ) ≤ ⌊(t - s.atime) / 720⌋ := by
          rw [Int.le_floor]
          push_cast
          rw [le_div_iff (by norm_num : (0:ℚ) < 720)]
          linarith
        have hfloor : ⌊(t - (dsSecStep c O 720 s).atime) / 720⌋ =
            ⌊(t - s.atime) / 720⌋ - 1 := by
          rw [hstep]
          have hq : (t - (s.atime + 720)) / 720 = (t - s.atime) / 720 - 1 := by ring
          rw [hq]
          exact_mod_cast Int.floor_sub_int ((t - s.atime) / 720) 1
        have hle2 : (⌊(t - (dsSecStep c O 720 s).atime) / 720⌋).toNat ≤ k := by
          rw [hfloor]; omega
        obtain ⟨ihEq, ihB⟩ := ih (dsSecStep c O 720 s) hge2 hle2
        have hunf : dsSecLoop c O 720 t (k + 1) s =
            dsSecLoop c O 720 t k (dsSecStep c O 720 s) := by
          rw [dsSecLoop, if_pos hc]
        have hm : (⌊(t - (dsSecStep c O 720 s).atime) / 720⌋).toNat + 1 =
            (⌊(t - s.atime) / 720⌋).toNat := by
          rw [hfloor]; omega
        refine ⟨?_, ?_⟩
        · rw [hunf, ihEq, ← Function.iterate_succ_apply, Nat.succ_eq_add_one, hm]
        · rw [hunf]; exact ihB
      · have hunf : dsSecLoop c O 720 t (k + 1) s = s := by
          rw [dsSecLoop, if_neg hc]
        have hlt : t - s.atime < 720 := by
          by_contra hx
          push_neg at hx
          exact hc (by rwa [abs_of_nonneg hge])
        have hfl : (⌊(t - s.atime) / 720⌋).toNat = 0 := by
          have h0 : ⌊(t - s.atime) / 720⌋ ≤ 0 := by
            by_contra hx
            push_neg at hx
            have h1 : (1 : ℤ) ≤ ⌊(t - s.atime) / 720⌋ := hx
            rw [Int.le_floor] at h1
            push_cast at h1
            rw [le_div_iff (by norm_num : (0:ℚ) < 720)] at h1
            linarith
          omega
        refine ⟨?_, ?_⟩
        · rw [hunf, hfl]
          rfl
        · rw [hunf, abs_of_nonneg hge]
          exact hlt

/-- The catch-up loop of DeepSpaceSecular with negative step, approaching t
from above: with any sufficient budget it runs exactly
floor((atime - t)/720) iterations, and the final clock lies within one
720-minute step above t. -/
theorem dsSecLoop_neg_char (c : SGP4Consts) (O : Oracles) (t : ℚ) :
    ∀ (n : ℕ) (s : DsIntState), t - s.atime ≤ 0 →
      (⌊(s.atime - t) / 720⌋).toNat ≤ n →
      dsSecLoop c O (-720) t n s =
        (dsSecStep c O (-720))^[(⌊(s.atime - t) / 720⌋).toNat] s ∧
      |t - (dsSecLoop c O (-720) t n s).atime| < 720 := by
  intro n
  induction n with
  | zero =>
      intro s hge hle
      have hk : (⌊(s.atime - t) / 720⌋).toNat = 0 := Nat.le_zero.mp hle
      have hlt : s.atime - t < 720 := by
        by_contra hx
        push_neg at hx
        have h1 : (1 : ℤ) ≤ ⌊(s.atime - t) / 720⌋ := by
          rw [Int.le_floor]
          push_cast
          rw [le_div_iff (by norm_num : (0:ℚ) < 720)]
          linarith
        omega
      refine ⟨?_, ?_⟩
      · rw [hk]
        rfl
      · have hz : dsSecLoop c O (-720) t 0 s = s := rfl
        rw [hz, abs_sub_comm, abs_of_nonneg (by linarith)]
        exact hlt
  | succ k ih =>
      intro s hge hle
      by_cases hc : 720 ≤ |t - s.atime|
      · have hc2 : (720 : ℚ) ≤ s.atime - t := by
          rw [abs_sub_comm, abs_of_nonneg (by linarith)] at hc
          exact hc
        have hstep : (dsSecStep c O (-720) s).atime = s.atime + -720 := rfl
        have hge2 : t - (dsSecStep c O (-720) s).atime ≤ 0 := by
          rw [hstep]; linarith
        have hkpos : (1 : ℤ) ≤ ⌊(s.atime - t) / 720⌋ := by
          rw [Int.le_floor]
          push_cast
          rw [le_div_iff (by norm_num : (0:ℚ) < 720)]
          linarith
        have hfloor : ⌊((dsSecStep c O (-720) s).atime - t) / 720⌋ =
            ⌊(s.atime - t) / 720⌋ - 1 := by
          rw [hstep]
          have hq : (s.atime + -720 - t) / 720 = (s.atime - t) / 720 - 1 := by ring
          rw [hq]
          exact_mod_cast Int.floor_sub_int ((s.atime - t) / 720) 1
        have hle2 : (⌊((dsSecStep c O (-720) s).atime - t) / 720⌋).toNat ≤ k := by
          rw [hfloor]; omega
        obtain ⟨ihEq, ihB⟩ := ih (dsSecStep c O (-720) s) hge2 hle2
        have hunf : dsSecLoop c O (-720) t (k + 1) s =
            dsSecLoop c O (-720) t k (dsSecStep c O (-720) s) := by
          rw [dsSecLoop, if_pos hc]
        have hm : (⌊((dsSecStep c O (-720) s).atime - t) / 720⌋).toNat + 1 =
            (⌊(s.atime - t) / 720⌋).toNat := by
          rw [hfloor]; omega
        refine ⟨?_, ?_⟩
        · rw [hunf, ihEq, ← Function.iterate_succ_apply, Nat.succ_eq_add_one, hm]
        · rw [hunf]; exact ihB
      · have hunf : dsSecLoop c O (-720) t (k + 1) s = s := by
          rw [dsSecLoop, if_neg hc]
        have hlt : s.atime - t < 720 := by
          by_contra hx
          push_neg at hx
          refine hc ?_
          rw [abs_sub_comm, abs_of_nonneg (by linarith)]
          exact hx
        have hfl : (⌊(s.atime - t) / 720⌋).toNat = 0 := by
          have h0 : ⌊(s.atime - t) / 720⌋ ≤ 0 := by
            by_contra hx
            push_neg at hx
            have h1 : (1 : ℤ) ≤ ⌊(s.atime - t) / 720⌋ := hx
            rw [Int.le_floor] at h1
            push_cast at h1
            rw [le_div_iff (by norm_num : (0:ℚ) < 720)] at h1
            linarith
          omega
        refine ⟨?_, ?_⟩
        · rw [hunf, hfl]
          rfl
        · rw [hunf, abs_sub_comm, abs_of_nonneg (by linarith)]
          exact hlt

/-- From every starting state, the restart-plus-catch-up logic of
DeepSpaceSecular leaves the integrator clock within one step of the
requested time. -/
theorem dsResonanceCore_bound (c : SGP4Consts) (O : Oracles) (t : ℚ) (s : DsIntState) :
    |t - (dsResonanceCore c O t s).atime| < 720 := by
  have key : ∀ s1 : DsIntState,
      |t - (dsSecLoop c O (if 0 ≤ t - s1.atime then 720 else -720) t
        (⌊|t - s1.atime| / 720⌋).toNat s1).atime| < 720 := by
    intro s1
    by_cases hd : 0 ≤ t - s1.atime
    · rw [if_pos hd, abs_of_nonneg hd]
      exact (dsSecLoop_pos_char c O t _ s1 hd le_rfl).2
    · push_neg at hd
      rw [if_neg (not_le.mpr hd), abs_of_neg hd, neg_sub]
      exact (dsSecLoop_neg_char c O t _ s1 (by linarith) le_rfl).2
  simp only [dsResonanceCore]
  by_cases hr : restartCond t s
  · rw [if_pos hr]
    exact key _
  · rw [if_neg hr]
    exact key _

/-- C8: for every resonant deep-space constants record and every requested
time t, the resonance integrator of deepSpaceSecular finishes with
|t - atime| < 720 at the final interpolation point, and each integrator step
moves atime by exactly the chosen step delt (which dsResonanceCore fixes to
+720 or -720 toward t). -/
theorem c8_integrator_convergence (c : SGP4Consts) (O : Oracles) (t : ℚ)
    (xll omgasm xnodes em xinc xn : ℚ) (s : DsIntState)
    (hres : c.resonanceFlag = true) :
    |t - ((deepSpaceSecular c O t xll omgasm xnodes em xinc xn s).2).atime| < 720 ∧
    (∀ (delt : ℚ) (s2 : DsIntState),
      (dsSecStep c O delt s2).atime = s2.atime + delt) := by
  refine ⟨?_, fun delt s2 => rfl⟩
  have h2 : (deepSpaceSecular c O t xll omgasm xnodes em xinc xn s).2 =
      dsResonanceCore c O t s := by
    simp [deepSpaceSecular, hres]
  rw [h2]
  exact dsResonanceCore_bound c O t s

/-- A deep-space constants record with the resonance flag set, used to
instantiate the integrator convergence theorem. -/
def sampleResConsts : SGP4Consts := { resetConsts with resonanceFlag := true }

/-- C8 witness: the integrator convergence bound instantiated at a resonant
constants record, t = 1000 and the zero integrator state. -/
theorem c8_witness :
    |1000 - ((deepSpaceSecular sampleResConsts sampleOracles 1000 0 0 0 0 0 0
        zeroIntState).2).atime| < 720 ∧
    (∀ (delt : ℚ) (s2 : DsIntState),
      (dsSecStep sampleResConsts sampleOracles delt s2).atime = s2.atime + delt) :=
  c8_integrator_convergence sampleResConsts sampleOracles 1000 0 0 0 0 0 0
    zeroIntState rfl

/-- A state whose clock is zero always satisfies the restart test of
DeepSpaceSecular (its middle disjunct t * atime <= 0). -/
theorem restartCond_of_atime0 (t : ℚ) (s : DsIntState) (h : s.atime = 0) :
    restartCond t s := by
  right
  left
  rw [h]
  simp

/-- The integrator states that can exist across a sequence of propagation
calls: the state set by SetTle, or an iterate of the fixed-step integrator
from the epoch restart state. -/
def IsReach (c : SGP4Consts) (O : Oracles) (s : DsIntState) : Prop :=
  s = initIntState c ∨
    ∃ (d : ℚ) (n : ℕ), (d = 720 ∨ d = -720) ∧
      s = (dsSecStep c O d)^[n] (resetIntState c)

/-- The restart-plus-catch-up logic gives the same final integrator state
from any zero-clock state as from the epoch restart state. -/
theorem dsResonanceCore_atime0 (c : SGP4Consts) (O : Oracles) (t : ℚ)
    (s : DsIntState) (h : s.atime = 0) :
    dsResonanceCore c O t s = dsResonanceCore c O t (resetIntState c) := by
  simp only [dsResonanceCore]
  rw [if_pos (restartCond_of_atime0 t s h),
    if_pos (restartCond_of_atime0 t (resetIntState c) rfl)]

/-- The restart-plus-catch-up logic gives the same final integrator state
from any iterate of the fixed-step integrator as from the epoch restart
state: when the restart test fails, the remaining catch-up steps land on
exactly the state a full catch-up from epoch would reach. -/
theorem dsResonanceCore_iterate (c : SGP4Consts) (O : Oracles) (t : ℚ) (d : ℚ) (n : ℕ)
    (hd : d = 720 ∨ d = -720) :
    dsResonanceCore c O t ((dsSecStep c O d)^[n] (resetIntState c)) =
      dsResonanceCore c O t (resetIntState c) := by
  set s := (dsSecStep c O d)^[n] (resetIntState c) with hs
  have ha : s.atime = (n : ℚ) * d := by
    rw [hs, dsSecStep_iterate_atime]
    show (0 : ℚ) + (n : ℚ) * d = (n : ℚ) * d
    rw [zero_add]
  by_cases hr : restartCond t s
  · simp only [dsResonanceCore]
    rw [if_pos hr, if_pos (restartCond_of_atime0 t (resetIntState c) rfl)]
  · have hr' := hr
    simp only [restartCond, not_or, not_lt, not_le] at hr'
    obtain ⟨h1, h2, h3⟩ := hr'
    rcases hd with hd | hd
    · subst hd
      have hn0 : n ≠ 0 := by
        rintro rfl
        rw [ha] at h2
        norm_num at h2
      have hnpos : (0 : ℚ) < (n : ℚ) := by
        exact_mod_cast Nat.pos_of_ne_zero hn0
      have hapos : 0 < s.atime := by
        rw [ha]
        exact mul_pos hnpos (by norm_num)
      have htpos : 0 < t := by
        by_contra hx
        push_neg at hx
        nlinarith [mul_nonneg (neg_nonneg.mpr hx) (le_of_lt hapos)]
      have hta : s.atime ≤ t := by
        rw [abs_of_pos hapos, abs_of_pos htpos] at h3
        exact h3
      have hge : 0 ≤ t - s.atime := by linarith
      simp only [dsResonanceCore]
      rw [if_neg hr, if_pos (restartCond_of_atime0 t (resetIntState c) rfl)]
      rw [show (resetIntState c).atime = (0:ℚ) from rfl, sub_zero]
      rw [if_pos hge, abs_of_nonneg hge, if_pos htpos.le, abs_of_nonneg htpos.le]
      have hL := (dsSecLoop_pos_char c O t (⌊(t - s.atime) / 720⌋).toNat s hge le_rfl).1
      have hR := (dsSecLoop_pos_char c O t (⌊t / 720⌋).toNat (resetIntState c)
        (by simp [show (resetIntState c).atime = (0:ℚ) from rfl]; linarith)
        (by simp [show (resetIntState c).atime = (0:ℚ) from rfl])).1
      rw [show (resetIntState c).atime = (0:ℚ) from rfl, sub_zero] at hR
      have hcomp : ∀ m : ℕ, (dsSecStep c O 720)^[m] s =
          (dsSecStep c O 720)^[m + n] (resetIntState c) := by
        intro m
        rw [hs, ← Function.iterate_add_apply]
      have hfl : ⌊(t - s.atime) / 720⌋ = ⌊t / 720⌋ - (n : ℤ) := by
        rw [ha]
        have hq : (t - (n : ℚ) * 720) / 720 = t / 720 - (n : ℚ) := by ring
        rw [hq]
        exact_mod_cast Int.floor_sub_int (t / 720) (n : ℤ)
      have hKn : (n : ℤ) ≤ ⌊t / 720⌋ := by
        rw [Int.le_floor]
        push_cast
        rw [le_div_iff (by norm_num : (0:ℚ) < 720)]
        have hta2 : (n : ℚ) * 720 ≤ t := by rw [← ha]; exact hta
        linarith
      have hKnat : (⌊(t - s.atime) / 720⌋).toNat + n = (⌊t / 720⌋).toNat := by
        rw [hfl]
        omega
      rw [hL, hR, hcomp, hKnat]
    · subst hd
      have hn0 : n ≠ 0 := by
        rintro rfl
        rw [ha] at h2
        norm_num at h2
      have hnpos : (0 : ℚ) < (n : ℚ) := by
        exact_mod_cast Nat.pos_of_ne_zero hn0
      have haneg : s.atime < 0 := by
        rw [ha]
        nlinarith [mul_pos hnpos (show (0:ℚ) < 720 by norm_num)]
      have htneg : t < 0 := by
        by_contra hx
        push_neg at hx
        nlinarith [mul_nonneg hx (neg_nonneg.mpr (le_of_lt haneg))]
      have hta : t ≤ s.atime := by
        rw [abs_of_neg haneg, abs_of_neg htneg] at h3
        linarith
      have hge : t - s.atime ≤ 0 := by linarith
      simp only [dsResonanceCore]
      rw [if_neg hr, if_pos (restartCond_of_atime0 t (resetIntState c) rfl)]
      rw [show (resetIntState c).atime = (0:ℚ) from rfl, sub_zero]
      rw [if_neg (not_le.mpr htneg), abs_of_neg htneg]
      by_cases hft : t - s.atime = 0
      · have hteq : t = s.atime := by linarith
        have hnf : ⌊-t / 720⌋ = (n : ℤ) := by
          rw [hteq, ha]
          have hq : -((n : ℚ) * -720) / 720 = (n : ℚ) := by ring
          rw [hq]
          exact_mod_cast Int.floor_natCast n
        have hR := (dsSecLoop_neg_char c O t (⌊-t / 720⌋).toNat (resetIntState c)
          (by simp [show (resetIntState c).atime = (0:ℚ) from rfl]; linarith)
          (by simp [show (resetIntState c).atime = (0:ℚ) from rfl])).1
        rw [show (resetIntState c).atime = (0:ℚ) from rfl, zero_sub] at hR
        have hz : (⌊|(0:ℚ)| / 720⌋).toNat = 0 := by norm_num
        rw [if_pos hft.symm.le, hft, hz, hR, hnf, Int.toNat_natCast]
        exact hs
      · have hftlt : t - s.atime < 0 := lt_of_le_of_ne hge hft
        rw [if_neg (not_le.mpr hftlt), abs_of_neg hftlt, neg_sub]
        have hL := (dsSecLoop_neg_char c O t (⌊(s.atime - t) / 720⌋).toNat s hge le_rfl).1
        have hR := (dsSecLoop_neg_char c O t (⌊-t / 720⌋).toNat (resetIntState c)
          (by simp [show (resetIntState c).atime = (0:ℚ) from rfl]; linarith)
          (by simp [show (resetIntState c).atime = (0:ℚ) from rfl])).1
        rw [show (resetIntState c).atime = (0:ℚ) from rfl, zero_sub] at hR
        have hcomp : ∀ m : ℕ, (dsSecStep c O (-720))^[m] s =
            (dsSecStep c O (-720))^[m + n] (resetIntState c) := by
          intro m
          rw [hs, ← Function.iterate_add_apply]
        have hfl : ⌊(s.atime - t) / 720⌋ = ⌊-t / 720⌋ - (n : ℤ) := by
          rw [ha]
          have hq : ((n : ℚ) * -720 - t) / 720 = -t / 720 - (n : ℚ) := by ring
          rw [hq]
          exact_mod_cast Int.floor_sub_int (-t / 720) (n : ℤ)
        have hKn : (n : ℤ) ≤ ⌊-t / 720⌋ := by
          rw [Int.le_floor]
          push_cast
          rw [le_div_iff (by norm_num : (0:ℚ) < 720)]
          have hta2 : t ≤ (n : ℚ) * -720 := by rw [← ha]; exact hta
          linarith
        have hKnat : (⌊(s.atime - t) / 720⌋).toNat + n = (⌊-t / 720⌋).toNat := by
          rw [hfl]
          omega
        rw [hL, hR, hcomp, hKnat]

/-- From any reachable state the restart-plus-catch-up logic computes the
same final state as from the state set at reset. -/
theorem dsResonanceCore_of_reach (c : SGP4Consts) (O : Oracles) (t : ℚ)
    (s : DsIntState) (hs : IsReach c O s) :
    dsResonanceCore c O t s = dsResonanceCore c O t (initIntState c) := by
  have hinit : dsResonanceCore c O t (initIntState c) =
      dsResonanceCore c O t (resetIntState c) := by
    refine dsResonanceCore_atime0 c O t _ ?_
    simp only [initIntState]
    split <;> rfl
  rcases hs with h | ⟨d, n, hd, h⟩
  · rw [h]
  · rw [h, hinit]
    exact dsResonanceCore_iterate c O t d n hd

/-- The restart-plus-catch-up logic always lands on a reachable state. -/
theorem dsResonanceCore_reach_preserved (c : SGP4Consts) (O : Oracles) (t : ℚ)
    (s : DsIntState) (hs : IsReach c O s) :
    IsReach c O (dsResonanceCore c O t s) := by
  have hinit : dsResonanceCore c O t (initIntState c) =
      dsResonanceCore c O t (resetIntState c) := by
    refine dsResonanceCore_atime0 c O t _ ?_
    simp only [initIntState]
    split <;> rfl
  rw [dsResonanceCore_of_reach c O t s hs, hinit]
  simp only [dsResonanceCore]
  rw [if_pos (restartCond_of_atime0 t (resetIntState c) rfl)]
  by_cases ht : 0 ≤ t - (resetIntState c).atime
  · rw [if_pos ht, abs_of_nonneg ht]
    right
    exact ⟨720, (⌊(t - (resetIntState c).atime) / 720⌋).toNat, Or.inl rfl,
      (dsSecLoop_pos_char c O t _ (resetIntState c) ht le_rfl).1⟩
  · push_neg at ht
    rw [if_neg (not_le.mpr ht), abs_of_neg ht, neg_sub]
    right
    exact ⟨-720, (⌊((resetIntState c).atime - t) / 720⌋).toNat, Or.inr rfl,
      (dsSecLoop_neg_char c O t _ (resetIntState c) (by linarith) le_rfl).1⟩

/-- DeepSpaceSecular computes the same outputs from any reachable state as
from the state set at reset, and its final state is again reachable. -/
theorem deepSpaceSecular_of_reach (c : SGP4Consts) (O : Oracles) (t : ℚ)
    (xll omgasm xnodes em xinc xn : ℚ) (s : DsIntState) (hs : IsReach c O s) :
    (deepSpaceSecular c O t xll omgasm xnodes em xinc xn s).1 =
      (deepSpaceSecular c O t xll omgasm xnodes em xinc xn (initIntState c)).1 ∧
    IsReach c O (deepSpaceSecular c O t xll omgasm xnodes em xinc xn s).2 := by
  by_cases hres : c.resonanceFlag = false
  · refine ⟨by simp [deepSpaceSecular, hres], ?_⟩
    have h2 : (deepSpaceSecular c O t xll omgasm xnodes em xinc xn s).2 = s := by
      simp [deepSpaceSecular, hres]
    rw [h2]
    exact hs
  · have hpair : deepSpaceSecular c O t xll omgasm xnodes em xinc xn s =
        deepSpaceSecular c O t xll omgasm xnodes em xinc xn (initIntState c) := by
      simp [deepSpaceSecular, hres, dsResonanceCore_of_reach c O t s hs]
    have h2 : (deepSpaceSecular c O t xll omgasm xnodes em xinc xn s).2 =
        dsResonanceCore c O t s := by
      simp [deepSpaceSecular, hres]
    refine ⟨by rw [hpair], ?_⟩
    rw [h2]
    exact dsResonanceCore_reach_preserved c O t s hs

/-- FindPosition produces the same result from any reachable state as from
the state set at reset, and leaves a reachable state behind. -/
theorem findPosition_of_reach (c : SGP4Consts) (O : Oracles) (t : ℚ)
    (s : DsIntState) (hs : IsReach c O s) :
    (findPosition c O t s).1 = (findPosition c O t (initIntState c)).1 ∧
    IsReach c O (findPosition c O t s).2 := by
  by_cases hds : c.useDeepSpace = true
  · have hsec := deepSpaceSecular_of_reach c O t (c.meanAnomoly + c.xmdot * t)
      (c.argumentPerigee + c.omgdot * t)
      (c.ascendingNode + c.xnodot * t + c.xnodcf * (t * t))
      c.eccentricity c.inclination c.recoveredMeanMotion s hs
    have hstage1 : (sdp4SecularStage c O t s).1 =
        (sdp4SecularStage c O t (initIntState c)).1 := by
      simp only [sdp4SecularStage]
      rw [hsec.1]
    have hstage2 : (sdp4SecularStage c O t s).2 =
        (deepSpaceSecular c O t (c.meanAnomoly + c.xmdot * t)
          (c.argumentPerigee + c.omgdot * t)
          (c.ascendingNode + c.xnodot * t + c.xnodcf * (t * t))
          c.eccentricity c.inclination c.recoveredMeanMotion s).2 := by
      simp only [sdp4SecularStage]
    constructor
    · simp only [findPosition, hds, if_true, findPositionSDP4]
      simp only [sdp4Result]
      rw [hstage1]
    · simp only [findPosition, hds, if_true, findPositionSDP4]
      rw [hstage2]
      exact hsec.2
  · constructor
    · simp [findPosition, hds]
    · have h2 : (findPosition c O t s).2 = s := by
        simp [findPosition, hds]
      rw [h2]
      exact hs

/-- Folding any list of propagation times through FindPosition keeps the
integrator state reachable. -/
theorem propagateSeq_reach (c : SGP4Consts) (O : Oracles) (ts : List ℚ) :
    IsReach c O (propagateSeq c O ts) := by
  simp only [propagateSeq]
  have key : ∀ (l : List ℚ) (s : DsIntState), IsReach c O s →
      IsReach c O (l.foldl (fun s2 u => (findPosition c O u s2).2) s) := by
    intro l
    induction l with
    | nil => intro s hs; exact hs
    | cons a l ih =>
        intro s hs
        exact ih _ (findPosition_of_reach c O a s hs).2
  exact key ts (initIntState c) (Or.inl rfl)

/-- C3: propagation is history-independent: for every constants record,
oracle set and sequence of earlier propagation times, the result of
findPosition at a time t from the integrator state left by the sequence
(propagateSeq) equals the result of findPosition at t from the state set at
reset by SetTle -- the resonance integrator state and its restart logic
never change the output for a given t. -/
theorem c3_history_independence (c : SGP4Consts) (O : Oracles) (ts : List ℚ) (t : ℚ) :
    (findPosition c O t (propagateSeq c O ts)).1 =
      (findPosition c O t (initIntState c)).1 :=
  (findPosition_of_reach c O t (propagateSeq c O ts) (propagateSeq_reach c O ts)).1

/-- CalculateFinalPositionVelocity fails only with Error: #4 or Error: #6,
never with the deep-space Error: #3. -/
theorem calcFPV_ne_err3 (O : Oracles) (tsince e a omega xl xnode xincl
    xlcof aycof x3thm1 x1mth2 x7thm1 cosio sinio : ℚ) :
    calculateFinalPositionVelocity O tsince e a omega xl xnode xincl
      xlcof aycof x3thm1 x1mth2 x7thm1 cosio sinio ≠
      Except.error SatErr.err3 := by
  intro h
  simp only [calculateFinalPositionVelocity] at h
  split at h
  · injection h with h2
    exact SatErr.noConfusion h2
  · split at h
    · injection h with h2
      exact SatErr.noConfusion h2
    · exact Except.noConfusion h

/-- The eccentricity validation can only fail with Error: #1. -/
theorem checkClampEcc_error (e : ℚ) (er : SatErr)
    (h : checkClampEcc e = Except.error er) : er = SatErr.err1 := by
  simp only [checkClampEcc] at h
  split at h
  · injection h with h2
    exact h2.symm
  · split at h <;> exact Except.noConfusion h

/-- The near-space propagation path never fails with Error: #3. -/
theorem findPositionSGP4_ne_err3 (c : SGP4Consts) (O : Oracles) (t : ℚ) :
    findPositionSGP4 c O t ≠ Except.error SatErr.err3 := by
  intro h
  simp only [findPositionSGP4] at h
  split at h <;> split at h
  · injection h with h2
    exact SatErr.noConfusion h2
  · split at h
    · rename_i er heq
      injection h with h2
      rw [h2] at heq
      exact SatErr.noConfusion (checkClampEcc_error _ _ heq)
    · exact calcFPV_ne_err3 _ _ _ _ _ _ _ _ _ _ _ _ _ _ _ h
  · injection h with h2
    exact SatErr.noConfusion h2
  · split at h
    · rename_i er heq
      injection h with h2
      rw [h2] at heq
      exact SatErr.noConfusion (checkClampEcc_error _ _ heq)
    · exact calcFPV_ne_err3 _ _ _ _ _ _ _ _ _ _ _ _ _ _ _ h

/-- C9: the deep-space path contains a post-periodics eccentricity range
check absent from the near-space path: FindPositionSDP4 fails with
Error: #3 exactly when the mean motion check passes, the drag-updated
eccentricity passes validation, and the eccentricity after the lunar/solar
periodics lies outside [0, 1]; the near-space path FindPositionSGP4 never
produces this error. -/
theorem c9_deep_space_ecc_check (c : SGP4Consts) (O : Oracles) (t : ℚ) (s : DsIntState) :
    ((findPositionSDP4 c O t s).1 = Except.error SatErr.err3 ↔
      ¬(sdp4SecularStage c O t s).1.xn ≤ 0 ∧
      (∃ e2 : ℚ, checkClampEcc (sdp4EccAfterDrag c O t s) = Except.ok e2) ∧
      (sdp4EccAfterPeriodics c O t s < 0 ∨ sdp4EccAfterPeriodics c O t s > 1)) ∧
    (∀ (c2 : SGP4Consts) (O2 : Oracles) (t2 : ℚ),
      findPositionSGP4 c2 O2 t2 ≠ Except.error SatErr.err3) := by
  refine ⟨?_, fun c2 O2 t2 => findPositionSGP4_ne_err3 c2 O2 t2⟩
  have hdrag : sdp4EccAfterDrag c O t s =
      (sdp4SecularStage c O t s).1.em - (sdp4SecularStage c O t s).1.tempe := rfl
  simp only [findPositionSDP4]
  by_cases hxn : (sdp4SecularStage c O t s).1.xn ≤ 0
  · rw [show sdp4Result c O t s = Except.error SatErr.err2xn from by
      simp only [sdp4Result]
      rw [if_pos hxn]]
    constructor
    · intro h
      injection h with h2
      exact SatErr.noConfusion h2
    · rintro ⟨hn, -, -⟩
      exact absurd hxn hn
  · rcases hcc : checkClampEcc ((sdp4SecularStage c O t s).1.em -
        (sdp4SecularStage c O t s).1.tempe) with er | e2
    · have her : er = SatErr.err1 := checkClampEcc_error _ _ hcc
      have hres : sdp4Result c O t s = Except.error er := by
        simp only [sdp4Result, hcc]
        rw [if_neg hxn]
      rw [hres]
      constructor
      · intro h
        injection h with h2
        rw [her] at h2
        exact SatErr.noConfusion h2
      · rintro ⟨-, ⟨e2, he2⟩, -⟩
        rw [hdrag, hcc] at he2
        exact Except.noConfusion he2
    · have hper : sdp4EccAfterPeriodics c O t s =
          (deepSpacePeriodics c O t e2 (sdp4SecularStage c O t s).1.xinc
            (sdp4SecularStage c O t s).1.omgadf (sdp4SecularStage c O t s).1.xnode
            ((sdp4SecularStage c O t s).1.xmdf +
              c.recoveredMeanMotion * (sdp4SecularStage c O t s).1.templ)).em := by
        simp only [sdp4EccAfterPeriodics]
        rw [hcc]
        rfl
      by_cases hem : sdp4EccAfterPeriodics c O t s < 0 ∨ sdp4EccAfterPeriodics c O t s > 1
      · have hem2 := hem
        rw [hper] at hem2
        have hres : sdp4Result c O t s = Except.error SatErr.err3 := by
          simp only [sdp4Result, hcc]
          rw [if_neg hxn, if_pos hem2]
        rw [hres]
        constructor
        · intro _
          exact ⟨hxn, ⟨e2, by rw [hdrag, hcc]⟩, hem⟩
        · intro _
          rfl
      · have hem2 := hem
        rw [hper] at hem2
        have hres : sdp4Result c O t s ≠ Except.error SatErr.err3 := by
          simp only [sdp4Result, hcc]
          rw [if_neg hxn, if_neg hem2]
          exact calcFPV_ne_err3 _ _ _ _ _ _ _ _ _ _ _ _ _ _ _
        constructor
        · intro h
          exact absurd h hres
        · rintro ⟨-, -, hembad⟩
          exact absurd hembad hem

end SGP4Q
